import Mathlib

/-! Goblin renderer, light-transport core.

A shallow embedding of `GoblinColor.h`, `GoblinSampler.h` (`CDF1D`) and
`GoblinRenderer.cpp`, with `float` taken as exact rational numbers.

Conventions of the embedding

* A `float` is a `ℚ`.  The only operation of exact arithmetic that has no
  rational value is a division by zero; a `Color` divided by a zero scalar
  is no finite colour, which is `none` in `Option Color`.
* Pointers that may be `NULL` are `Option`s; a dereference of `NULL` and a
  `vector` read past its end are the faults `Fault.nullDeref` and
  `Fault.outOfRange`.
* `while` loops run on fuel; `Fault.outOfFuel` says the fuel given did not
  suffice.
-/

namespace Goblin

/-! ## GoblinColor.h -/

/-- Color of `GoblinColor.h`: `float r, g, b, a`. -/
structure Color where
  r : ℚ
  g : ℚ
  b : ℚ
  a : ℚ
deriving DecidableEq

namespace Color

/-- The constructor `Color(float c)`: `r(c), g(c), b(c), a(1.0f)`. -/
def ofFloat (c : ℚ) : Color := ⟨c, c, c, 1⟩

/-- The constructor `Color(float r, float g, float b, float a = 1.0f)` with
the default alpha. -/
def rgb (r g b : ℚ) : Color := ⟨r, g, b, 1⟩

/-- Modelled from the spec: the constant `Color::Black`, declared in
`GoblinColor.h` and defined in a file that is not part of the sources.  The
spec calls it the additive identity and the "no contribution" sentinel: the
colour components are zero; alpha is the constructors' default. -/
def Black : Color := ⟨0, 0, 0, 1⟩

/-- The method `operator+`. -/
def add (x rhs : Color) : Color := ⟨x.r + rhs.r, x.g + rhs.g, x.b + rhs.b, x.a⟩

/-- The method `operator+=` (alpha is left alone). -/
def addAssign (x rhs : Color) : Color :=
  { x with r := x.r + rhs.r, g := x.g + rhs.g, b := x.b + rhs.b }

/-- The method `operator*(float s)`. -/
def mulScalar (x : Color) (s : ℚ) : Color := ⟨x.r * s, x.g * s, x.b * s, x.a⟩

/-- The method `operator*(const Color& rhs)`. -/
def mul (x rhs : Color) : Color := ⟨x.r * rhs.r, x.g * rhs.g, x.b * rhs.b, x.a⟩

/-- The method `operator*=(const Color& rhs)`. -/
def mulAssign (x rhs : Color) : Color :=
  { x with r := x.r * rhs.r, g := x.g * rhs.g, b := x.b * rhs.b }

/-- The method `operator/(float s)`: `inv = 1.0f / s`, then a product with
`inv`.  For `s = 0` there is no finite result. -/
def divScalar (x : Color) (s : ℚ) : Option Color :=
  if s = 0 then none
  else
    let inv : ℚ := 1 / s
    some ⟨x.r * inv, x.g * inv, x.b * inv, x.a⟩

/-- The method `operator/=(float s)`. -/
def divAssignScalar (x : Color) (s : ℚ) : Option Color :=
  if s = 0 then none
  else
    let inv : ℚ := 1 / s
    some { x with r := x.r * inv, g := x.g * inv, b := x.b * inv }

/-- The method `operator==`: all four components. -/
def eq (x rhs : Color) : Bool :=
  decide (x.r = rhs.r) && decide (x.g = rhs.g) && decide (x.b = rhs.b) && decide (x.a = rhs.a)

/-- The method `operator!=`. -/
def ne (x rhs : Color) : Bool := !(x.eq rhs)

/-- The free function `operator*(float s, const Color& rhs)`: `rhs * s`. -/
def scale (s : ℚ) (rhs : Color) : Color := rhs.mulScalar s

end Color

/-! ## GoblinSampler.h: CDF1D -/

/-- The class `CDF1D` of `GoblinSampler.h`: its four data members. -/
structure CDF1D where
  mFunction : List ℚ
  mCDF : List ℚ
  mIntegral : ℚ
  mDx : ℚ

namespace CDF1D

/-- Modelled from the spec: the constructor `CDF1D(const vector<float>&)`,
whose body is not part of the sources.  It follows the header's comment:
`dx = 1 / n`, `integral = (f(1) + ... + f(n)) * dx`, `CDF(0) = 0` and
`CDF(k) = (f(1) + ... + f(k)) * dx / integral`. -/
def ofFunction (f1D : List ℚ) : CDF1D :=
  let n := f1D.length
  let dx : ℚ := 1 / (n : ℚ)
  let integral : ℚ := f1D.sum * dx
  { mFunction := f1D
    mCDF := (List.range (n + 1)).map (fun k => (f1D.take k).sum * dx / integral)
    mIntegral := integral
    mDx := dx }

/-- The entry `mCDF[k]`. -/
def cdfAt (c : CDF1D) (k : Nat) : ℚ := c.mCDF.getD k 0

/-- Modelled from the spec: the binary search of `sampleDiscrete` in the
CDF, for the bucket `lo` with `CDF(lo) <= u < CDF(lo + 1)`: the interval
`[lo, hi)` is halved until one bucket is left. -/
def search (c : CDF1D) (u : ℚ) : Nat → Nat → Nat → Nat
  | 0, lo, _ => lo
  | fuel + 1, lo, hi =>
    if hi ≤ lo + 1 then lo
    else
      let mid := lo + (hi - lo) / 2
      if c.cdfAt mid ≤ u then search c u fuel mid hi else search c u fuel lo mid

/-- Modelled from the spec: `sampleDiscrete(u, *pdf)`, whose body is not
part of the sources: the index found by binary search in the CDF, and the
probability mass (not density) of that index, written to `*pdf`; the pair
is (returned index, `*pdf`). -/
def sampleDiscrete (c : CDF1D) (u : ℚ) : Nat × ℚ :=
  let n := c.mFunction.length
  let i := search c u n 0 n
  (i, c.mFunction.getD i 0 * c.mDx / c.mIntegral)

end CDF1D

/-- Modelled from the spec: `powerHeuristic(nf, fPdf, ng, gPdf)` of
`GoblinUtils.h`, which is not part of the sources: the power heuristic with
exponent 2, `w = pdf_a² / (pdf_a² + pdf_b²)`, each pdf scaled by the number
of samples of its strategy (1 and 1 at every call of `estimateLd`). -/
def powerHeuristic (nf : ℚ) (fPdf : ℚ) (ng : ℚ) (gPdf : ℚ) : ℚ :=
  let f := nf * fPdf
  let g := ng * gPdf
  (f * f) / (f * f + g * g)

/-! ## Collaborators of the renderer -/

/-- The types and helpers that `GoblinRenderer.cpp` takes from headers which
are not part of the sources (`GoblinVector.h`, `GoblinRay.h`,
`GoblinLight.h`, `GoblinMaterial.h`, `GoblinUtils.h`): they are parameters
of the embedding.  `RNG` is the state of the random stream; a draw returns
the value and the next state. -/
structure Externals where
  Vector3 : Type
  Ray : Type
  Sample : Type
  LightSample : Type
  BSDFSample : Type
  LightSampleIndex : Type
  BSDFSampleIndex : Type
  RNG : Type
  /-- Unary `operator-` of `Vector3`. -/
  neg : Vector3 → Vector3
  /-- Binary `operator-` of `Vector3`. -/
  sub : Vector3 → Vector3 → Vector3
  /-- The call `absdot(a, b)`. -/
  absdot : Vector3 → Vector3 → ℚ
  /-- The call `ray(t)`. -/
  rayAt : Ray → ℚ → Vector3
  /-- The member `ray.d`. -/
  rayD : Ray → Vector3
  /-- The member `ray.depth`. -/
  rayDepth : Ray → Int
  /-- The assignment `ray.depth = k`. -/
  raySetDepth : Ray → Int → Ray
  /-- The constructor `Ray(o, d, mint)`. -/
  mkRay : Vector3 → Vector3 → ℚ → Ray
  /-- The constructor `Ray(o, d, mint, maxt)`. -/
  mkSegment : Vector3 → Vector3 → ℚ → ℚ → Ray
  /-- The call `rng.randomFloat()`. -/
  randomFloat : RNG → ℚ × RNG
  /-- The constructor `LightSample(rng)`. -/
  lightSampleOfRNG : RNG → LightSample × RNG
  /-- The constructor `BSDFSample(rng)`. -/
  bsdfSampleOfRNG : RNG → BSDFSample × RNG
  /-- The constructor `LightSample(sample, lightSampleIndexes[i], n)`. -/
  lightSampleOf : Sample → LightSampleIndex → Nat → LightSample
  /-- The constructor `BSDFSample(sample, bsdfSampleIndexes[i], n)`. -/
  bsdfSampleOf : Sample → BSDFSampleIndex → Nat → BSDFSample
  /-- The member `lightSampleIndexes[i].samplesNum`. -/
  samplesNum : LightSampleIndex → Nat
  /-- The bit `BSDFSpecular` of `BSDFType`. -/
  BSDFSpecular : Nat
  /-- The bit `BSDFReflection` of `BSDFType`. -/
  BSDFReflection : Nat
  /-- The bit `BSDFTransmission` of `BSDFType`. -/
  BSDFTransmission : Nat

/-- What `light->sampleL(p, epsilon, ls, &wi, &pdf, &shadowRay)` returns and
writes. -/
structure LightSampling (X : Externals) where
  L : Color
  wi : X.Vector3
  pdf : ℚ
  shadowRay : X.Ray

/-- The interface `Light`; `addr` is the address of the object, which
`estimateLd` compares with `getAreaLight()`. -/
structure Light (X : Externals) where
  addr : Nat
  sampleL : X.Vector3 → ℚ → X.LightSample → LightSampling X
  pdf : X.Vector3 → X.Vector3 → ℚ
  Le : X.Ray → ℚ → Nat → Color
  isDelta : Bool

/-- The part of `Fragment` the renderer reads: `getPosition()` and
`getNormal()`. -/
structure Fragment (X : Externals) where
  position : X.Vector3
  normal : X.Vector3

/-- What `material->sampleBSDF(fragment, wo, bs, &wi, &pdf, type,
&sampledType)` returns and writes. -/
structure BSDFSampling (X : Externals) where
  f : Color
  wi : X.Vector3
  pdf : ℚ
  sampledType : Nat

/-- The interface `Material`. -/
structure Material (X : Externals) where
  bsdf : Fragment X → X.Vector3 → X.Vector3 → Color
  pdf : Fragment X → X.Vector3 → X.Vector3 → ℚ
  sampleBSDF : Fragment X → X.Vector3 → X.BSDFSample → Nat → BSDFSampling X

/-- The part of `Intersection` the renderer reads: `fragment`,
`primitive->getMaterial()`, `primitive->getAreaLight()` (an address, or
`NULL`) and the method `Le`. -/
structure Intersection (X : Externals) where
  fragment : Fragment X
  material : Material X
  areaLight : Option Nat
  Le : X.Vector3 → Color

/-- The interface `VolumeRegion`; `intersect` returns `(tMin, tMax)` on a
hit. -/
structure VolumeRegion (X : Externals) where
  intersect : X.Ray → Option (ℚ × ℚ)
  transmittance : X.Ray → Color
  getEmission : X.Vector3 → Color
  getScatter : X.Vector3 → Color
  phase : X.Vector3 → X.Vector3 → X.Vector3 → ℚ
  getSampleStepSize : ℚ

/-- The interface `Scene`: `intersect(ray)`, `intersect(ray, &epsilon,
&intersection)`, `getLights()` and `getVolumeRegion()`. -/
structure Scene (X : Externals) where
  intersect : X.Ray → Bool
  intersectFull : X.Ray → Option (ℚ × Intersection X)
  lights : List (Light X)
  volumeRegion : Option (VolumeRegion X)

/-- What goes wrong without a value: a dereference of `NULL`, a read past
the end of an array, and a loop that the given fuel does not finish. -/
inductive Fault where
  | nullDeref
  | outOfRange
  | outOfFuel
deriving DecidableEq

/-- The state of a `Renderer` that the routines read: the power
distribution (`NULL` from the constructor on) and the pure virtual `Li` of
the concrete integrator. -/
structure Renderer (X : Externals) where
  mPowerDistribution : Option CDF1D
  Li : Scene X → X.Ray → X.Sample → X.RNG → Option Color

/-- The statement `acc += x` on colours either of which may be no finite
colour. -/
def accumulate (acc x : Option Color) : Option Color :=
  match acc, x with
  | some c, some d => some (c.addAssign d)
  | _, _ => none

/-! ## GoblinRenderer.cpp -/

/-- The method `Renderer::transmittance`. -/
def Renderer.transmittance {X : Externals} (scene : Scene X) (ray : X.Ray) : Color :=
  match scene.volumeRegion with
  | none => Color.ofFloat 1
  | some volume => volume.transmittance ray

/-- How the light-sampling part of `estimateLd` ends: with the `return` of
the delta-light branch, or by going on to the BSDF part with `Ld`. -/
inductive LightPart where
  | returned (value : Option Color)
  | goesOn (Ld : Option Color)

/-- The light-sampling part of `Renderer::estimateLd` ("MIS for lighting
part"). -/
def Renderer.estimateLdLight {X : Externals} (scene : Scene X) (wo : X.Vector3)
    (epsilon : ℚ) (intersection : Intersection X) (light : Light X)
    (ls : X.LightSample) : LightPart :=
  let Ld : Option Color := some Color.Black
  let material := intersection.material
  let fragment := intersection.fragment
  let p := fragment.position
  let n := fragment.normal
  let s := light.sampleL p epsilon ls
  if s.L.ne Color.Black && decide (0 < s.pdf) then
    let f := material.bsdf fragment wo s.wi
    if f.ne Color.Black && !scene.intersect s.shadowRay then
      if light.isDelta then
        LightPart.returned (((f.mul s.L).mulScalar (X.absdot n s.wi)).divScalar s.pdf)
      else
        let bsdfPdf := material.pdf fragment wo s.wi
        let lWeight := powerHeuristic 1 s.pdf 1 bsdfPdf
        LightPart.goesOn (accumulate Ld
          ((((f.mul s.L).mulScalar (X.absdot n s.wi)).mulScalar lWeight).divScalar s.pdf))
    else LightPart.goesOn Ld
  else LightPart.goesOn Ld

/-- The end of the BSDF part of `Renderer::estimateLd`, from
`Intersection lightIntersect;` on: the ray along the sampled direction, and
what it adds to `Ld` with the weight `fWeight`. -/
def Renderer.estimateLdGather {X : Externals} (scene : Scene X)
    (epsilon : ℚ) (intersection : Intersection X) (light : Light X)
    (b : BSDFSampling X) (fWeight : ℚ) (Ld : Option Color) : Option Color :=
  let fragment := intersection.fragment
  let n := fragment.normal
  let r := X.mkRay fragment.position b.wi epsilon
  match scene.intersectFull r with
  | some (_, lightIntersect) =>
    if lightIntersect.areaLight = some light.addr then
      let Li := lightIntersect.Le (X.neg b.wi)
      if Li.ne Color.Black then
        accumulate Ld
          ((((b.f.mul Li).mulScalar (X.absdot b.wi n)).mulScalar fWeight).divScalar b.pdf)
      else Ld
    else Ld
  | none =>
    accumulate Ld
      (((b.f.mul (light.Le r b.pdf b.sampledType)).mulScalar fWeight).divScalar b.pdf)

/-- The BSDF part of `Renderer::estimateLd` ("MIS for bsdf part"), entered
with the `Ld` of the light part. -/
def Renderer.estimateLdBSDF {X : Externals} (scene : Scene X) (wo : X.Vector3)
    (epsilon : ℚ) (intersection : Intersection X) (light : Light X)
    (bs : X.BSDFSample) (type : Nat) (Ld : Option Color) : Option Color :=
  let material := intersection.material
  let fragment := intersection.fragment
  let p := fragment.position
  let b := material.sampleBSDF fragment wo bs type
  if b.f.ne Color.Black && decide (0 < b.pdf) then
    if b.sampledType &&& X.BSDFSpecular = 0 then
      let lightPdf := light.pdf p b.wi
      if lightPdf = 0 then Ld
      else
        Renderer.estimateLdGather scene epsilon intersection light b
          (powerHeuristic 1 b.pdf 1 lightPdf) Ld
    else Renderer.estimateLdGather scene epsilon intersection light b 1 Ld
  else Ld

/-- The method `Renderer::estimateLd`. -/
def Renderer.estimateLd {X : Externals} (scene : Scene X) (wo : X.Vector3)
    (epsilon : ℚ) (intersection : Intersection X) (light : Light X)
    (ls : X.LightSample) (bs : X.BSDFSample) (type : Nat) : Option Color :=
  match Renderer.estimateLdLight scene wo epsilon intersection light ls with
  | LightPart.returned value => value
  | LightPart.goesOn Ld =>
    Renderer.estimateLdBSDF scene wo epsilon intersection light bs type Ld

/-- The method `Renderer::singleSampleLd`. -/
def Renderer.singleSampleLd {X : Externals} (rd : Renderer X) (scene : Scene X)
    (ray : X.Ray) (epsilon : ℚ) (intersection : Intersection X)
    (lightSample : X.LightSample) (bsdfSample : X.BSDFSample)
    (pickLightSample : ℚ) (type : Nat) : Except Fault (Option Color) :=
  let lights := scene.lights
  if lights.length = 0 then Except.ok (some Color.Black)
  else
    match rd.mPowerDistribution with
    | none => Except.error Fault.nullDeref
    | some powerDistribution =>
      let pick := powerDistribution.sampleDiscrete pickLightSample
      match lights.get? pick.1 with
      | none => Except.error Fault.outOfRange
      | some light =>
        let Ld := (Renderer.estimateLd scene (X.neg (X.rayD ray)) epsilon intersection
          light lightSample bsdfSample type).bind (fun c => c.divScalar pick.2)
        Except.ok Ld

/-- The inner loop of `Renderer::multiSampleLd`, `for(n = ...; n <
samplesNum; ++n)`, with `todo` rounds left. -/
def Renderer.multiSampleLdInner {X : Externals} (scene : Scene X) (ray : X.Ray)
    (epsilon : ℚ) (intersection : Intersection X) (sample : X.Sample)
    (lightSampleIndexes : Option (List X.LightSampleIndex))
    (bsdfSampleIndexes : Option (List X.BSDFSampleIndex))
    (type : Nat) (i : Nat) (light : Light X) :
    Nat → Nat → Option Color → X.RNG → Except Fault (Option Color × X.RNG)
  | 0, _, Ld, rng => Except.ok (Ld, rng)
  | todo + 1, n, Ld, rng =>
    let lsr := X.lightSampleOfRNG rng
    let bsr := X.bsdfSampleOfRNG lsr.2
    let go (ls : X.LightSample) (bs : X.BSDFSample) :=
      Renderer.multiSampleLdInner scene ray epsilon intersection sample
        lightSampleIndexes bsdfSampleIndexes type i light todo (n + 1)
        (accumulate Ld (Renderer.estimateLd scene (X.neg (X.rayD ray)) epsilon
          intersection light ls bs type)) bsr.2
    match lightSampleIndexes, bsdfSampleIndexes with
    | some lsi, some bsi =>
      match lsi.get? i, bsi.get? i with
      | some li, some bi => go (X.lightSampleOf sample li n) (X.bsdfSampleOf sample bi n)
      | _, _ => Except.error Fault.outOfRange
    | _, _ => go lsr.1 bsr.1

/-- The outer loop of `Renderer::multiSampleLd`, `for(i = ...; i <
lights.size(); ++i)`, over the lights from index `i` on. -/
def Renderer.multiSampleLdOuter {X : Externals} (scene : Scene X) (ray : X.Ray)
    (epsilon : ℚ) (intersection : Intersection X) (sample : X.Sample)
    (lightSampleIndexes : Option (List X.LightSampleIndex))
    (bsdfSampleIndexes : Option (List X.BSDFSampleIndex))
    (type : Nat) :
    List (Light X) → Nat → Option Color → X.RNG → Except Fault (Option Color)
  | [], _, totalLd, _ => Except.ok totalLd
  | light :: rest, i, totalLd, rng =>
    match lightSampleIndexes with
    | none => Except.error Fault.nullDeref
    | some lsi =>
      match lsi.get? i with
      | none => Except.error Fault.outOfRange
      | some li =>
        let samplesNum := X.samplesNum li
        match Renderer.multiSampleLdInner scene ray epsilon intersection sample
            lightSampleIndexes bsdfSampleIndexes type i light samplesNum 0
            (some Color.Black) rng with
        | Except.error e => Except.error e
        | Except.ok (Ld, rng1) =>
          let Ld1 := Ld.bind (fun c => c.divAssignScalar (samplesNum : ℚ))
          Renderer.multiSampleLdOuter scene ray epsilon intersection sample
            lightSampleIndexes bsdfSampleIndexes type rest (i + 1)
            (accumulate totalLd Ld1) rng1

/-- The method `Renderer::multiSampleLd`. -/
def Renderer.multiSampleLd {X : Externals} (scene : Scene X) (ray : X.Ray)
    (epsilon : ℚ) (intersection : Intersection X) (sample : X.Sample)
    (rng : X.RNG)
    (lightSampleIndexes : Option (List X.LightSampleIndex))
    (bsdfSampleIndexes : Option (List X.BSDFSampleIndex))
    (type : Nat) : Except Fault (Option Color) :=
  Renderer.multiSampleLdOuter scene ray epsilon intersection sample
    lightSampleIndexes bsdfSampleIndexes type scene.lights 0 (some Color.Black) rng

/-- The method `Renderer::specularReflect`. -/
def Renderer.specularReflect {X : Externals} (rd : Renderer X) (scene : Scene X)
    (ray : X.Ray) (epsilon : ℚ) (intersection : Intersection X)
    (sample : X.Sample) (rng : X.RNG) : Option Color :=
  let L : Option Color := some Color.Black
  let n := intersection.fragment.normal
  let p := intersection.fragment.position
  let material := intersection.material
  let wo := X.neg (X.rayD ray)
  let bsr := X.bsdfSampleOfRNG rng
  let b := material.sampleBSDF intersection.fragment wo bsr.1
    (X.BSDFSpecular ||| X.BSDFReflection)
  if b.f.ne Color.Black && decide (X.absdot b.wi n ≠ 0) then
    let reflectiveRay := X.raySetDepth (X.mkRay p b.wi epsilon) (X.rayDepth ray + 1)
    let Lr := rd.Li scene reflectiveRay sample bsr.2
    accumulate L (Lr.bind (fun c =>
      ((b.f.mul c).mulScalar (X.absdot b.wi n)).divScalar b.pdf))
  else L

/-- The method `Renderer::specularRefract`. -/
def Renderer.specularRefract {X : Externals} (rd : Renderer X) (scene : Scene X)
    (ray : X.Ray) (epsilon : ℚ) (intersection : Intersection X)
    (sample : X.Sample) (rng : X.RNG) : Option Color :=
  let L : Option Color := some Color.Black
  let n := intersection.fragment.normal
  let p := intersection.fragment.position
  let material := intersection.material
  let wo := X.neg (X.rayD ray)
  let bsr := X.bsdfSampleOfRNG rng
  let b := material.sampleBSDF intersection.fragment wo bsr.1
    (X.BSDFSpecular ||| X.BSDFTransmission)
  if b.f.ne Color.Black && decide (X.absdot b.wi n ≠ 0) then
    let refractiveRay := X.raySetDepth (X.mkRay p b.wi epsilon) (X.rayDepth ray + 1)
    let Lr := rd.Li scene refractiveRay sample bsr.2
    accumulate L (Lr.bind (fun c =>
      ((b.f.mul c).mulScalar (X.absdot b.wi n)).divScalar b.pdf))
  else L

/-- The local variables of `Renderer::Lv` that its `while` loop updates, and
the state of the random stream. -/
structure LvState (X : Externals) where
  tCurrent : ℚ
  pPrevious : X.Vector3
  pCurrent : X.Vector3
  Lv : Option Color
  transmittance : Color
  rng : X.RNG

/-- The body of the `while` loop of `Renderer::Lv`. -/
def Renderer.LvBody {X : Externals} (rd : Renderer X) (scene : Scene X) (ray : X.Ray)
    (volume : VolumeRegion X) (stepSize : ℚ) (st : LvState X) :
    Except Fault (LvState X) :=
  let rSegment := X.mkSegment st.pPrevious (X.sub st.pCurrent st.pPrevious) 0 1
  let trSegment := volume.transmittance rSegment
  let transmittance := st.transmittance.mulAssign trSegment
  let Lv0 := accumulate st.Lv (some (transmittance.mul (volume.getEmission st.pCurrent)))
  let scatter := volume.getScatter st.pCurrent
  let pickLightSample := X.randomFloat st.rng
  match rd.mPowerDistribution with
  | none => Except.error Fault.nullDeref
  | some powerDistribution =>
    let pick := powerDistribution.sampleDiscrete pickLightSample.1
    let lights := scene.lights
    let advance (Lv : Option Color) (rng : X.RNG) : LvState X :=
      { tCurrent := st.tCurrent + stepSize
        pPrevious := st.pCurrent
        pCurrent := X.rayAt ray (st.tCurrent + stepSize)
        Lv := Lv
        transmittance := transmittance
        rng := rng }
    if 0 < lights.length then
      match lights.get? pick.1 with
      | none => Except.error Fault.outOfRange
      | some light =>
        let ls := X.lightSampleOfRNG pickLightSample.2
        let s := light.sampleL st.pCurrent 0 ls.1
        if s.L.ne Color.Black && decide (0 < s.pdf) then
          if !scene.intersect s.shadowRay then
            let Ld := ((volume.transmittance s.shadowRay).mul s.L).divScalar (pick.2 * s.pdf)
            let phase := volume.phase st.pCurrent (X.rayD ray) s.wi
            Except.ok (advance (accumulate Lv0
              (Ld.map (fun c => ((transmittance.mul scatter).mulScalar phase).mul c))) ls.2)
          else Except.ok (advance Lv0 ls.2)
        else Except.ok (advance Lv0 ls.2)
    else Except.ok (advance Lv0 pickLightSample.2)

/-- The loop `while(tCurrent <= tMax)` of `Renderer::Lv`, on fuel. -/
def Renderer.LvLoop {X : Externals} (rd : Renderer X) (scene : Scene X) (ray : X.Ray)
    (volume : VolumeRegion X) (stepSize tMax : ℚ) :
    Nat → LvState X → Except Fault (LvState X)
  | 0, st => if st.tCurrent ≤ tMax then Except.error Fault.outOfFuel else Except.ok st
  | fuel + 1, st =>
    if st.tCurrent ≤ tMax then
      match Renderer.LvBody rd scene ray volume stepSize st with
      | Except.error e => Except.error e
      | Except.ok st1 => Renderer.LvLoop rd scene ray volume stepSize tMax fuel st1
    else Except.ok st

/-- The method `Renderer::Lv`; `fuel` bounds the rounds of its loop. -/
def Renderer.Lv {X : Externals} (rd : Renderer X) (fuel : Nat) (scene : Scene X)
    (ray : X.Ray) (rng : X.RNG) : Except Fault (Option Color) :=
  match scene.volumeRegion with
  | none => Except.ok (some Color.Black)
  | some volume =>
    match volume.intersect ray with
    | none => Except.ok (some Color.Black)
    | some (tMin, tMax) =>
      let stepSize := volume.getSampleStepSize
      let pPrevious := X.rayAt ray tMin
      let jitter := X.randomFloat rng
      let tCurrent := tMin + stepSize * jitter.1
      let pCurrent := X.rayAt ray tCurrent
      let Lv : Option Color := some (Color.ofFloat 0)
      let transmittance := Color.ofFloat 1
      match Renderer.LvLoop rd scene ray volume stepSize tMax fuel
          { tCurrent := tCurrent, pPrevious := pPrevious, pCurrent := pCurrent,
            Lv := Lv, transmittance := transmittance, rng := jitter.2 } with
      | Except.error e => Except.error e
      | Except.ok st => Except.ok (st.Lv.map (fun c => Color.scale stepSize c))

/-! ## A small concrete world -/

/-- A one-dimensional world for the concrete runs: points and directions are
rationals, a ray is (origin, direction), every random draw is `1/2`. -/
@[reducible]
def lineWorld : Externals where
  Vector3 := ℚ
  Ray := ℚ × ℚ
  Sample := Unit
  LightSample := Unit
  BSDFSample := Unit
  LightSampleIndex := Nat
  BSDFSampleIndex := Nat
  RNG := Nat
  neg := fun v => -v
  sub := fun a b => a - b
  absdot := fun a b => |a * b|
  rayAt := fun r t => r.1 + t * r.2
  rayD := fun r => r.2
  rayDepth := fun _ => 0
  raySetDepth := fun r _ => r
  mkRay := fun o d _ => (o, d)
  mkSegment := fun o d _ _ => (o, d)
  randomFloat := fun k => (1 / 2, k + 1)
  lightSampleOfRNG := fun k => ((), k + 1)
  bsdfSampleOfRNG := fun k => ((), k + 1)
  lightSampleOf := fun _ _ _ => ()
  bsdfSampleOf := fun _ _ _ => ()
  samplesNum := fun k => k
  BSDFSpecular := 16
  BSDFReflection := 1
  BSDFTransmission := 2

/-- A volume region of the line world: hit on `[0, 2]`, step `1`, grey
transmittance. -/
def fogVolume : VolumeRegion lineWorld where
  intersect := fun _ => some (0, 2)
  transmittance := fun _ => Color.rgb (1 / 2) (1 / 2) (1 / 2)
  getEmission := fun _ => Color.rgb 1 1 1
  getScatter := fun _ => Color.rgb 1 1 1
  phase := fun _ _ _ => 1
  getSampleStepSize := 1

/-- A scene of the line world with the fog volume and nothing else. -/
def fogScene : Scene lineWorld where
  intersect := fun _ => false
  intersectFull := fun _ => none
  lights := []
  volumeRegion := some fogVolume

/-- A white colour `(1, 1, 1, 1)`. -/
def white : Color := Color.rgb 1 1 1

/-- An area light of the line world at address 7: every light sample has
radiance white, direction `+1`, pdf `1` and the shadow ray `(0, +1)`; the
flag `delta` is what `isDelta()` answers. -/
def lampLight (delta : Bool) : Light lineWorld where
  addr := 7
  sampleL := fun _ _ _ => { L := white, wi := 1, pdf := 1, shadowRay := (0, 1) }
  pdf := fun _ _ => 1
  Le := fun _ _ _ => Color.Black
  isDelta := delta

/-- A material of the line world: the BSDF is white with pdf `1`, and a BSDF
sample has value white, direction `-1`, the pdf `samplePdf` and the lobe
type `lobe`. -/
def paintMaterial (samplePdf : ℚ) (lobe : Nat) : Material lineWorld where
  bsdf := fun _ _ _ => white
  pdf := fun _ _ _ => 1
  sampleBSDF := fun _ _ _ _ => { f := white, wi := -1, pdf := samplePdf, sampledType := lobe }

/-- The surface point of the concrete runs: position `0`, normal `1`, the
paint material, no area light. -/
def paintHit (samplePdf : ℚ) (lobe : Nat) : Intersection lineWorld where
  fragment := { position := 0, normal := 1 }
  material := paintMaterial samplePdf lobe
  areaLight := none
  Le := fun _ => Color.Black

/-- What a ray of direction `-1` hits in the lamp scene: the emitting
surface of the lamp at address 7, white in every direction. -/
def lampSurface : Intersection lineWorld where
  fragment := { position := -1, normal := 1 }
  material := paintMaterial 1 4
  areaLight := some 7
  Le := fun _ => white

/-- A scene of the line world: rays of direction `+1` are blocked when
`blocked` is set, rays of direction `-1` reach the lamp's surface. -/
def lampScene (blocked : Bool) : Scene lineWorld where
  intersect := fun ray => blocked && decide (ray.2 = 1)
  intersectFull := fun ray => if ray.2 = -1 then some (0, lampSurface) else none
  lights := [lampLight false]
  volumeRegion := none

/-- A renderer of the line world: no power distribution, and an `Li` that
answers white for every ray. -/
def whiteRenderer : Renderer lineWorld where
  mPowerDistribution := none
  Li := fun _ _ _ _ => some white

/-- The lamp scene with two lights, the second a delta light. -/
def twoLampScene : Scene lineWorld where
  intersect := fun _ => false
  intersectFull := fun ray => if ray.2 = -1 then some (0, lampSurface) else none
  lights := [lampLight false, lampLight true]
  volumeRegion := none

/-- A renderer of the line world whose power distribution is built from the
powers 1 and 3. -/
def twoLampRenderer : Renderer lineWorld where
  mPowerDistribution := some (CDF1D.ofFunction [1, 3])
  Li := fun _ _ _ _ => some white

/-- The exact quotient `c / s` of a colour by a scalar `s`, for statements:
the three colour components divided, alpha kept. -/
def Color.over (c : Color) (s : ℚ) : Color := ⟨c.r / s, c.g / s, c.b / s, c.a⟩

/-- The sum `c 0 + ... + c (n - 1)` of colours, for statements: the
componentwise sums, with the alpha of `Color::Black` that the accumulators
of the renderer start from. -/
def Color.sum (n : Nat) (c : Nat → Color) : Color :=
  { r := ∑ k in Finset.range n, (c k).r
    g := ∑ k in Finset.range n, (c k).g
    b := ∑ k in Finset.range n, (c k).b
    a := Color.Black.a }

/-- The value `estimateLd(light_i, ls_{i,k}, bs_{i,k})` of the statement
about `multiSampleLd`: the samples are those looked up in `sample` with the
index entries `li`, `bi` of light `i` and the sample number `k`. -/
def Renderer.multiSampleLdTerm {X : Externals} (scene : Scene X) (ray : X.Ray)
    (epsilon : ℚ) (intersection : Intersection X) (sample : X.Sample) (type : Nat)
    (light : Light X) (li : X.LightSampleIndex) (bi : X.BSDFSampleIndex) (k : Nat) : Color :=
  (Renderer.estimateLd scene (X.neg (X.rayD ray)) epsilon intersection light
    (X.lightSampleOf sample li k) (X.bsdfSampleOf sample bi k) type).getD Color.Black

/-- The average over the `n_i` samples of light `i` in the statement about
`multiSampleLd`: `(sum over k < n_i of estimateLd(light_i, ls_{i,k},
bs_{i,k})) / n_i`. -/
def Renderer.multiSampleLdAverage {X : Externals} (scene : Scene X) (ray : X.Ray)
    (epsilon : ℚ) (intersection : Intersection X) (sample : X.Sample) (type : Nat)
    (lightSampleIndexes : List X.LightSampleIndex)
    (bsdfSampleIndexes : List X.BSDFSampleIndex) (i : Nat) : Color :=
  match scene.lights.get? i, lightSampleIndexes.get? i, bsdfSampleIndexes.get? i with
  | some light, some li, some bi =>
    (Color.sum (X.samplesNum li)
      (Renderer.multiSampleLdTerm scene ray epsilon intersection sample type light li bi)).over
      (X.samplesNum li : ℚ)
  | _, _, _ => Color.Black

/-- The value that the statement about `multiSampleLd` gives: the sum over
the lights of the averages. -/
def Renderer.multiSampleLdSpec {X : Externals} (scene : Scene X) (ray : X.Ray)
    (epsilon : ℚ) (intersection : Intersection X) (sample : X.Sample) (type : Nat)
    (lightSampleIndexes : List X.LightSampleIndex)
    (bsdfSampleIndexes : List X.BSDFSampleIndex) : Color :=
  Color.sum scene.lights.length
    (Renderer.multiSampleLdAverage scene ray epsilon intersection sample type
      lightSampleIndexes bsdfSampleIndexes)

/-! ### The ray march of `Lv`, as the statement about it describes it -/

/-- What a ray march of `Renderer::Lv` starts from: the scene, the ray, the
volume hit from `tMin` on, the power distribution, the first jitter `u` and
the state of the random stream after the jitter was drawn. -/
structure LvMarch (X : Externals) where
  scene : Scene X
  ray : X.Ray
  volume : VolumeRegion X
  powerDistribution : CDF1D
  tMin : ℚ
  u : ℚ
  rng : X.RNG

namespace LvMarch

variable {X : Externals}

/-- The ray parameter `t_k = tMin + (u + k) * s` of sample point `k`, with
`s` the step size of the volume. -/
def t (m : LvMarch X) (k : Nat) : ℚ := m.tMin + (m.u + (k : ℚ)) * m.volume.getSampleStepSize

/-- The number `N` of sample points up to `tMax`: the `k` with `t_k <= tMax`
are `0, ..., N - 1`. -/
def count (m : LvMarch X) (tMax : ℚ) : Nat :=
  (⌊(tMax - m.tMin) / m.volume.getSampleStepSize - m.u⌋ + 1).toNat

/-- The sample point `p_k = ray(t_k)`. -/
def point (m : LvMarch X) (k : Nat) : X.Vector3 := X.rayAt m.ray (m.t k)

/-- The state of the random stream when sample point `k` is reached: each
point draws the pick sample, and a `LightSample` if there are lights. -/
def rngAt (m : LvMarch X) : Nat → X.RNG
  | 0 => m.rng
  | k + 1 =>
    if 0 < m.scene.lights.length then
      (X.lightSampleOfRNG (X.randomFloat (m.rngAt k)).2).2
    else (X.randomFloat (m.rngAt k)).2

/-- The light pick at sample point `k`: (index, `pickLightPdf`). -/
def pick (m : LvMarch X) (k : Nat) : Nat × ℚ :=
  m.powerDistribution.sampleDiscrete (X.randomFloat (m.rngAt k)).1

/-- The light sample at sample point `k`, when the picked light exists. -/
def lightSampling (m : LvMarch X) (k : Nat) : Option (LightSampling X) :=
  (m.scene.lights.get? (m.pick k).1).map (fun light =>
    light.sampleL (m.point k) 0 (X.lightSampleOfRNG (X.randomFloat (m.rngAt k)).2).1)

/-- The estimate `Ld_k = transmittance(shadowRay) * L / (pickLightPdf *
lightPdf)` when the light sample is usable and unoccluded, and zero
otherwise. -/
def Ld (m : LvMarch X) (k : Nat) : Color :=
  match m.lightSampling k with
  | some s =>
    if s.L ≠ Color.Black ∧ 0 < s.pdf ∧ m.scene.intersect s.shadowRay = false then
      ((m.volume.transmittance s.shadowRay).mul s.L).over ((m.pick k).2 * s.pdf)
    else Color.ofFloat 0
  | none => Color.ofFloat 0

/-- The phase function `phase_k` between the ray and the sampled light
direction at `p_k`. -/
def phase (m : LvMarch X) (k : Nat) : ℚ :=
  match m.lightSampling k with
  | some s => m.volume.phase (m.point k) (X.rayD m.ray) s.wi
  | none => 0

end LvMarch

/-- The fog scene with the lamp as its one light. -/
def fogLampScene : Scene lineWorld where
  intersect := fun _ => false
  intersectFull := fun _ => none
  lights := [lampLight false]
  volumeRegion := some fogVolume

/-- A renderer of the line world whose power distribution is built from the
one power 2. -/
def fogRenderer : Renderer lineWorld where
  mPowerDistribution := some (CDF1D.ofFunction [2])
  Li := fun _ _ _ _ => some white

/-- The class `RenderProgress`: the two counters that
`GoblinRenderer.cpp` initialises and updates.  Their declaration
(`GoblinRenderer.h`) is not part of the sources; the counters are taken as
integers. -/
structure RenderProgress where
  mFinishedNum : Int
  mTasksNum : Int

/-- What `RenderProgress::update` writes to `std::cout`: the progress line
with the percentage `mFinishedNum / mTasksNum * 100` (no finite value for
zero tasks), and the line "Render Complete!". -/
inductive ProgressOutput where
  | progress (percent : Option ℚ)
  | complete
deriving DecidableEq

namespace RenderProgress

/-- The constructor `RenderProgress(int taskNum)`: `mFinishedNum(0),
mTasksNum(taskNum)`. -/
def new (taskNum : Int) : RenderProgress := { mFinishedNum := 0, mTasksNum := taskNum }

/-- The method `RenderProgress::reset`. -/
def reset (p : RenderProgress) : RenderProgress := { p with mFinishedNum := 0 }

/-- The method `RenderProgress::update`, run under its lock: the state it
leaves and what it writes, in order. -/
def update (p : RenderProgress) : RenderProgress × List ProgressOutput :=
  let p1 : RenderProgress := { p with mFinishedNum := p.mFinishedNum + 1 }
  let percent : Option ℚ :=
    if (p1.mTasksNum : ℚ) = 0 then none
    else some ((p1.mFinishedNum : ℚ) / (p1.mTasksNum : ℚ) * 100)
  (p1, ProgressOutput.progress percent ::
    (if p1.mFinishedNum = p1.mTasksNum then [ProgressOutput.complete] else []))

/-- The state after `k` calls of `update` (and no `reset`). -/
def afterUpdates (p : RenderProgress) : Nat → RenderProgress
  | 0 => p
  | k + 1 => (afterUpdates p k).update.1

/-- What the `k`-th call of `update` writes, `k = 1, 2, ...`; nothing for
`k = 0`. -/
def outputOfUpdate (p : RenderProgress) : Nat → List ProgressOutput
  | 0 => []
  | k + 1 => (afterUpdates p k).update.2

/-- Everything written by the first `k` calls of `update`, in order. -/
def outputOfUpdates (p : RenderProgress) : Nat → List ProgressOutput
  | 0 => []
  | k + 1 => outputOfUpdates p k ++ outputOfUpdate p (k + 1)

end RenderProgress

/-! ### The RNG fallback of `multiSampleLd` -/

/-- The stream after one round of the inner loop of `multiSampleLd`: the
round constructs `LightSample ls(rng)` and `BSDFSample bs(rng)`. -/
def Renderer.multiSampleLdStream {X : Externals} (rng : X.RNG) : X.RNG :=
  (X.bsdfSampleOfRNG (X.lightSampleOfRNG rng).2).2

/-- The value `estimateLd(light, ls, bs)` on the samples that round `k` of
the inner loop of `multiSampleLd` draws from the random stream, the stream
being `rng` at round 0. -/
def Renderer.multiSampleLdFallbackTerm {X : Externals} (scene : Scene X) (ray : X.Ray)
    (epsilon : ℚ) (intersection : Intersection X) (type : Nat) (light : Light X)
    (rng : X.RNG) (k : Nat) : Color :=
  (Renderer.estimateLd scene (X.neg (X.rayD ray)) epsilon intersection light
    (X.lightSampleOfRNG (Renderer.multiSampleLdStream^[k] rng)).1
    (X.bsdfSampleOfRNG (X.lightSampleOfRNG (Renderer.multiSampleLdStream^[k] rng)).2).1
    type).getD Color.Black

/-- A volume of the line world like the fog volume, with the step size 0. -/
def stillVolume : VolumeRegion lineWorld := { fogVolume with getSampleStepSize := 0 }

/-- The fog-lamp scene with the still volume. -/
def stillScene : Scene lineWorld := { fogLampScene with volumeRegion := some stillVolume }

/-! ### RenderTask -/

/-- The state in which `Renderer::Lv` leaves the random stream when it
returns (the stream is drawn from through `const RNG&`). -/
def Renderer.LvStream {X : Externals} (rd : Renderer X) (fuel : Nat) (scene : Scene X)
    (ray : X.Ray) (rng : X.RNG) : X.RNG :=
  match scene.volumeRegion with
  | none => rng
  | some volume =>
    match volume.intersect ray with
    | none => rng
    | some (tMin, tMax) =>
      let stepSize := volume.getSampleStepSize
      let jitter := X.randomFloat rng
      let tCurrent := tMin + stepSize * jitter.1
      match Renderer.LvLoop rd scene ray volume stepSize tMax fuel
          { tCurrent := tCurrent, pPrevious := X.rayAt ray tMin,
            pCurrent := X.rayAt ray tCurrent, Lv := some (Color.ofFloat 0),
            transmittance := Color.ofFloat 1, rng := jitter.2 } with
      | Except.error _ => jitter.2
      | Except.ok st => st.rng

/-- What `RenderTask::run` works with: the renderer, the scene, the camera's
`generateRay(sample, &ray)` (weight and ray), the state in which `Li`
leaves the random stream, and `sampler.requestSamples(samples)`, which
returns the count, the contents of the buffer `samples` and the next state
of the sampler.  `Camera` and the body of `Sampler` are not part of the
sources. -/
structure RenderTask (X : Externals) (SamplerState : Type) where
  mRenderer : Renderer X
  mScene : Scene X
  generateRay : X.Sample → ℚ × X.Ray
  LiStream : Scene X → X.Ray → X.Sample → X.RNG → X.RNG
  requestSamples : SamplerState → Int × (Nat → X.Sample) × SamplerState

/-- What `RenderTask::run` does to the world outside, in order: a call
`mTile->addSample(sample, value)` or the call `mRenderProgress->update()`. -/
inductive TaskEvent (X : Externals) where
  | addSample (sample : X.Sample) (value : Option Color)
  | progressUpdate

namespace RenderTask

variable {X : Externals} {SamplerState : Type}

/-- The value `w * (tr * L + Lv)` that `run` passes to `addSample`; `L` and
`Lv` may be no finite colour. -/
def splatValue (w : ℚ) (tr : Color) (L Lv : Option Color) : Option Color :=
  match L, Lv with
  | some l, some lv => some (Color.scale w ((tr.mul l).add lv))
  | _, _ => none

/-- The body of the `for` loop of `RenderTask::run` for the sample
`samples[s]`: the `addSample` call it makes and the random stream after. -/
def sampleStep (task : RenderTask X SamplerState) (lvFuel : Nat) (sample : X.Sample)
    (rng : X.RNG) : Except Fault (TaskEvent X × X.RNG) :=
  let gen := task.generateRay sample
  let L := task.mRenderer.Li task.mScene gen.2 sample rng
  let rng1 := task.LiStream task.mScene gen.2 sample rng
  let tr := Renderer.transmittance task.mScene gen.2
  match Renderer.Lv task.mRenderer lvFuel task.mScene gen.2 rng1 with
  | Except.error e => Except.error e
  | Except.ok Lv =>
    Except.ok (TaskEvent.addSample sample (splatValue gen.1 tr L Lv),
      Renderer.LvStream task.mRenderer lvFuel task.mScene gen.2 rng1)

/-- The loop `for(int s = 0; s < sampleNum; ++s)` of `RenderTask::run` over
the buffer, with `todo` rounds left; `trace` collects the events. -/
def batch (task : RenderTask X SamplerState) (lvFuel : Nat) (buffer : Nat → X.Sample) :
    Nat → Nat → X.RNG → List (TaskEvent X) → Except Fault (X.RNG × List (TaskEvent X))
  | 0, _, rng, trace => Except.ok (rng, trace)
  | todo + 1, s, rng, trace =>
    match sampleStep task lvFuel (buffer s) rng with
    | Except.error e => Except.error e
    | Except.ok (event, rng1) => batch task lvFuel buffer todo (s + 1) rng1 (trace ++ [event])

/-- The loop `while((sampleNum = sampler.requestSamples(samples)) > 0)` of
`RenderTask::run`, on fuel, and the call `mRenderProgress->update()` after
it. -/
def loop (task : RenderTask X SamplerState) (lvFuel : Nat) :
    Nat → SamplerState → X.RNG → List (TaskEvent X) → Except Fault (List (TaskEvent X))
  | 0, _, _, _ => Except.error Fault.outOfFuel
  | fuel + 1, sampler, rng, trace =>
    let request := task.requestSamples sampler
    if 0 < request.1 then
      match batch task lvFuel request.2.1 request.1.toNat 0 rng trace with
      | Except.error e => Except.error e
      | Except.ok (rng1, trace1) => loop task lvFuel fuel request.2.2 rng1 trace1
    else Except.ok (trace ++ [TaskEvent.progressUpdate])

/-- The random stream after the sample was handled: `Li`, then `Lv`. -/
def streamAfter (task : RenderTask X SamplerState) (lvFuel : Nat) (sample : X.Sample)
    (rng : X.RNG) : X.RNG :=
  Renderer.LvStream task.mRenderer lvFuel task.mScene (task.generateRay sample).2
    (task.LiStream task.mScene (task.generateRay sample).2 sample rng)

/-- The value `w * (tr * L + Lv)` of a sample: `w` and the ray from the
camera, `L` from `Li`, `tr` from `transmittance`, and `Lv` (given by
`LvOf`) on the stream that `Li` left. -/
def value (task : RenderTask X SamplerState) (LvOf : X.Ray → X.RNG → Option Color)
    (sample : X.Sample) (rng : X.RNG) : Option Color :=
  splatValue (task.generateRay sample).1
    (Renderer.transmittance task.mScene (task.generateRay sample).2)
    (task.mRenderer.Li task.mScene (task.generateRay sample).2 sample rng)
    (LvOf (task.generateRay sample).2
      (task.LiStream task.mScene (task.generateRay sample).2 sample rng))

/-- The random stream after all the samples of the list were handled. -/
def streamAfterAll (task : RenderTask X SamplerState) (lvFuel : Nat) :
    List X.Sample → X.RNG → X.RNG
  | [], rng => rng
  | sample :: rest, rng => streamAfterAll task lvFuel rest (streamAfter task lvFuel sample rng)

end RenderTask

theorem Color.eq_iff (x y : Color) : x.eq y = true ↔ x = y := by
  cases x; cases y; simp [Color.eq, and_assoc]

theorem Color.ne_iff (x y : Color) : x.ne y = true ↔ x ≠ y := by
  simp [Color.ne, ← Color.eq_iff]

/-- C9: `Renderer::transmittance` is opaque white `(1, 1, 1, 1)` when the
scene has no volume region, and otherwise exactly the volume's
transmittance of the same ray. -/
theorem transmittance_delegates {X : Externals} (scene : Scene X) (ray : X.Ray) :
    (scene.volumeRegion = none →
      Renderer.transmittance scene ray = { r := 1, g := 1, b := 1, a := 1 }) ∧
    (∀ volume, scene.volumeRegion = some volume →
      Renderer.transmittance scene ray = volume.transmittance ray) := by
  constructor
  · intro h; simp [Renderer.transmittance, h, Color.ofFloat]
  · intro v h; simp [Renderer.transmittance, h]

/-- C3: the two MIS weights of `estimateLd` are complementary. -/
theorem powerHeuristic_complementary (pl pb : ℚ) (hl : 0 ≤ pl) (hb : 0 ≤ pb)
    (hne : ¬(pl = 0 ∧ pb = 0)) :
    powerHeuristic 1 pl 1 pb = pl ^ 2 / (pl ^ 2 + pb ^ 2) ∧
    powerHeuristic 1 pb 1 pl = pb ^ 2 / (pb ^ 2 + pl ^ 2) ∧
    0 ≤ powerHeuristic 1 pl 1 pb ∧ powerHeuristic 1 pl 1 pb ≤ 1 ∧
    0 ≤ powerHeuristic 1 pb 1 pl ∧ powerHeuristic 1 pb 1 pl ≤ 1 ∧
    powerHeuristic 1 pl 1 pb + powerHeuristic 1 pb 1 pl = 1 := by
  have hpos : 0 < pl ^ 2 + pb ^ 2 := by
    rcases eq_or_lt_of_le hl with h | h
    · rcases eq_or_lt_of_le hb with h' | h'
      · exact absurd ⟨h.symm, h'.symm⟩ hne
      · positivity
    · positivity
  have h1 : powerHeuristic 1 pl 1 pb = pl ^ 2 / (pl ^ 2 + pb ^ 2) := by
    simp only [powerHeuristic, one_mul]; ring
  have h2 : powerHeuristic 1 pb 1 pl = pb ^ 2 / (pb ^ 2 + pl ^ 2) := by
    simp only [powerHeuristic, one_mul]; ring
  have hpos' : 0 < pb ^ 2 + pl ^ 2 := by rw [add_comm]; exact hpos
  refine ⟨h1, h2, ?_, ?_, ?_, ?_, ?_⟩
  · rw [h1]; positivity
  · rw [h1, div_le_one hpos]; nlinarith [sq_nonneg pb]
  · rw [h2]; positivity
  · rw [h2, div_le_one hpos']; nlinarith [sq_nonneg pl]
  · rw [h1, h2, add_comm (pb ^ 2) (pl ^ 2), ← add_div, div_self hpos.ne']

theorem powerHeuristic_complementary_witness :
    (0:ℚ) ≤ 1 ∧ (0:ℚ) ≤ 3 ∧ powerHeuristic 1 1 1 3 + powerHeuristic 1 3 1 1 = 1 :=
  ⟨by norm_num, by norm_num,
    (powerHeuristic_complementary 1 3 (by norm_num) (by norm_num) (by norm_num)).2.2.2.2.2.2⟩

theorem transmittance_delegates_witness :
    fogScene.volumeRegion = some fogVolume ∧
    Renderer.transmittance fogScene ((0, 1) : ℚ × ℚ) = fogVolume.transmittance (0, 1) :=
  ⟨rfl, (transmittance_delegates fogScene (0, 1)).2 fogVolume rfl⟩

theorem CDF1D.cdfAt_ofFunction (f : List ℚ) (k : Nat) (hk : k ≤ f.length) :
    (CDF1D.ofFunction f).cdfAt k
      = (f.take k).sum * (1 / (f.length : ℚ)) / (f.sum * (1 / (f.length : ℚ))) := by
  simp [CDF1D.cdfAt, CDF1D.ofFunction, List.getD_eq_getElem?_getD, List.getElem?_map,
    List.getElem?_range (Nat.lt_succ_of_le hk)]

theorem CDF1D.cdfAt_eq_div (f : List ℚ) (hne : f ≠ []) (k : Nat) (hk : k ≤ f.length) :
    (CDF1D.ofFunction f).cdfAt k = (f.take k).sum / f.sum := by
  rw [CDF1D.cdfAt_ofFunction f k hk]
  have hn : (f.length : ℚ) ≠ 0 := by
    have : 0 < f.length := List.length_pos.mpr hne
    exact_mod_cast this.ne'
  have h1 : (1 / (f.length : ℚ)) ≠ 0 := one_div_ne_zero hn
  rw [mul_div_mul_right _ _ h1]

theorem take_sum_mono (f : List ℚ) (hnonneg : ∀ x ∈ f, 0 ≤ x) (j k : Nat) (hjk : j ≤ k)
    (hk : k ≤ f.length) : (f.take j).sum ≤ (f.take k).sum := by
  induction k with
  | zero =>
    have : j = 0 := by omega
    subst this; exact le_refl _
  | succ m ih =>
    rcases Nat.eq_or_lt_of_le hjk with h | h
    · subst h; exact le_refl _
    · have hm : m < f.length := by omega
      have step : (f.take (m + 1)).sum = (f.take m).sum + f[m] := List.sum_take_succ f m hm
      have hx : 0 ≤ f[m] := hnonneg _ (List.getElem_mem hm)
      have := ih (by omega) (by omega)
      linarith

theorem CDF1D.search_spec (c : CDF1D) (u : ℚ) :
    ∀ (fuel lo hi : Nat), hi ≤ lo + fuel + 1 → lo < hi → c.cdfAt lo ≤ u → u < c.cdfAt hi →
      lo ≤ c.search u fuel lo hi ∧ c.search u fuel lo hi < hi ∧
      c.cdfAt (c.search u fuel lo hi) ≤ u ∧ u < c.cdfAt (c.search u fuel lo hi + 1) := by
  intro fuel
  induction fuel with
  | zero =>
    intro lo hi h1 h2 h3 h4
    have : hi = lo + 1 := by omega
    subst this
    simp [CDF1D.search, h3, h4]
  | succ m ih =>
    intro lo hi h1 h2 h3 h4
    unfold CDF1D.search
    by_cases hle : hi ≤ lo + 1
    · have : hi = lo + 1 := by omega
      subst this
      simp [h3, h4]
    · simp only [hle, if_false]
      have hmid1 : lo < lo + (hi - lo) / 2 := by omega
      have hmid2 : lo + (hi - lo) / 2 < hi := by omega
      by_cases hc : c.cdfAt (lo + (hi - lo) / 2) ≤ u
      · simp only [hc, if_true]
        obtain ⟨a, b, d, e⟩ := ih (lo + (hi - lo) / 2) hi (by omega) hmid2 hc h4
        exact ⟨by omega, b, d, e⟩
      · simp only [hc, if_false]
        obtain ⟨a, b, d, e⟩ := ih lo (lo + (hi - lo) / 2) (by omega) hmid1 h3 (not_le.mp hc)
        exact ⟨a, by omega, d, e⟩

/-- C10: for a non-empty vector of non-negative weights with positive sum,
the CDF built as the header documents is non-decreasing from 0 to 1, and
for every `u` in `[0, 1)` `sampleDiscrete` returns an index `i < n` with
`CDF(i) <= u < CDF(i + 1)` and writes `pdf = f(i) / sum(f)`. -/
theorem CDF1D_sampleDiscrete_spec (f : List ℚ) (hne : f ≠ [])
    (hnonneg : ∀ x ∈ f, 0 ≤ x) (hsum : 0 < f.sum) :
    (∀ k, k ≤ f.length →
      (CDF1D.ofFunction f).cdfAt k
        = (f.take k).sum * (1 / (f.length : ℚ)) / (f.sum * (1 / (f.length : ℚ)))) ∧
    (CDF1D.ofFunction f).cdfAt 0 = 0 ∧
    (∀ j k, j ≤ k → k ≤ f.length →
      (CDF1D.ofFunction f).cdfAt j ≤ (CDF1D.ofFunction f).cdfAt k) ∧
    (CDF1D.ofFunction f).cdfAt f.length = 1 ∧
    ∀ u : ℚ, 0 ≤ u → u < 1 →
      ((CDF1D.ofFunction f).sampleDiscrete u).1 < f.length ∧
      (CDF1D.ofFunction f).cdfAt ((CDF1D.ofFunction f).sampleDiscrete u).1 ≤ u ∧
      u < (CDF1D.ofFunction f).cdfAt (((CDF1D.ofFunction f).sampleDiscrete u).1 + 1) ∧
      ((CDF1D.ofFunction f).sampleDiscrete u).2
        = f.getD ((CDF1D.ofFunction f).sampleDiscrete u).1 0 / f.sum := by
  have hlen : 0 < f.length := List.length_pos.mpr hne
  have h0 : (CDF1D.ofFunction f).cdfAt 0 = 0 := by
    rw [CDF1D.cdfAt_eq_div f hne 0 (Nat.zero_le _)]; simp
  have h1 : (CDF1D.ofFunction f).cdfAt f.length = 1 := by
    rw [CDF1D.cdfAt_eq_div f hne f.length le_rfl, List.take_length, div_self hsum.ne']
  refine ⟨fun k hk => CDF1D.cdfAt_ofFunction f k hk, h0, ?_, h1, ?_⟩
  · intro j k hjk hk
    rw [CDF1D.cdfAt_eq_div f hne j (le_trans hjk hk), CDF1D.cdfAt_eq_div f hne k hk]
    exact div_le_div_of_nonneg_right (take_sum_mono f hnonneg j k hjk hk) hsum.le
  · intro u hu0 hu1
    have hs := CDF1D.search_spec (CDF1D.ofFunction f) u f.length 0 f.length (by omega) hlen
      (by rw [h0]; exact hu0) (by rw [h1]; exact hu1)
    have hidx : ((CDF1D.ofFunction f).sampleDiscrete u).1
        = (CDF1D.ofFunction f).search u f.length 0 f.length := by
      simp [CDF1D.sampleDiscrete, CDF1D.ofFunction]
    rw [hidx]
    refine ⟨hs.2.1, hs.2.2.1, hs.2.2.2, ?_⟩
    have hn : (f.length : ℚ) ≠ 0 := by exact_mod_cast hlen.ne'
    have hd : (1 / (f.length : ℚ)) ≠ 0 := one_div_ne_zero hn
    simp only [CDF1D.sampleDiscrete]
    show f.getD _ 0 * (1 / (f.length : ℚ)) / (f.sum * (1 / (f.length : ℚ))) = _
    rw [mul_div_mul_right _ _ hd]
    rfl

theorem CDF1D_sampleDiscrete_spec_witness :
    ([1, 3] : List ℚ) ≠ [] ∧ (0 : ℚ) < ([1, 3] : List ℚ).sum ∧
    (CDF1D.ofFunction [1, 3]).mCDF = [0, 1 / 4, 1] ∧
    (CDF1D.ofFunction [1, 3]).sampleDiscrete (1 / 2) = (1, 3 / 4) ∧
    (CDF1D.ofFunction [1, 3]).cdfAt 2 = 1 :=
  ⟨by simp, by norm_num, by norm_num [CDF1D.ofFunction, List.range, List.range.loop],
    by norm_num [CDF1D.sampleDiscrete, CDF1D.search, CDF1D.ofFunction, CDF1D.cdfAt,
      List.range, List.range.loop],
    (CDF1D_sampleDiscrete_spec [1, 3] (by simp) (by simp) (by norm_num)).2.2.2.1⟩

/-- C1, as stated, fails: in the lamp scene the shadow ray of the light
sample is occluded, yet `estimateLd` returns the grey that the BSDF sample
gathers from the lamp's surface, not `Color::Black`. -/
theorem occluded_shadow_ray_not_black :
    (lampScene true).intersect
      ((lampLight false).sampleL (paintHit 1 4).fragment.position 0 ()).shadowRay = true ∧
    Renderer.estimateLd (lampScene true) (1 : ℚ) 0 (paintHit 1 4) (lampLight false) () () 0
      = some (Color.rgb (1 / 2) (1 / 2) (1 / 2)) ∧
    Renderer.estimateLd (lampScene true) (1 : ℚ) 0 (paintHit 1 4) (lampLight false) () () 0
      ≠ some Color.Black := by
  have h : Renderer.estimateLd (lampScene true) (1 : ℚ) 0 (paintHit 1 4) (lampLight false) () () 0
      = some (Color.rgb (1 / 2) (1 / 2) (1 / 2)) := by
    norm_num [Renderer.estimateLd, Renderer.estimateLdLight, Renderer.estimateLdBSDF,
      Renderer.estimateLdGather, lampScene, lampLight, paintHit, paintMaterial, lampSurface,
      white, Color.rgb, Color.ne, Color.eq, Color.Black, accumulate, Color.mul,
      Color.mulScalar, Color.divScalar, Color.addAssign, powerHeuristic,
      (by decide : (4 : Nat) &&& 16 = 0)]
  refine ⟨by decide, h, ?_⟩
  rw [h]
  norm_num [Color.rgb, Color.Black]

/-- C1, amended: when the shadow ray of the light sample is occluded, the
light-sampling strategy adds nothing, so `estimateLd` returns exactly what
its BSDF-sampling part adds to `Color::Black`; it returns `Color::Black`
when moreover `sampleBSDF` returns black or a pdf that is not positive. -/
theorem estimateLd_occluded {X : Externals} (scene : Scene X) (wo : X.Vector3)
    (epsilon : ℚ) (intersection : Intersection X) (light : Light X)
    (ls : X.LightSample) (bs : X.BSDFSample) (type : Nat)
    (hocc : scene.intersect
      (light.sampleL intersection.fragment.position epsilon ls).shadowRay = true) :
    Renderer.estimateLd scene wo epsilon intersection light ls bs type
      = Renderer.estimateLdBSDF scene wo epsilon intersection light bs type
          (some Color.Black) ∧
    ((intersection.material.sampleBSDF intersection.fragment wo bs type).f = Color.Black ∨
      (intersection.material.sampleBSDF intersection.fragment wo bs type).pdf ≤ 0 →
      Renderer.estimateLd scene wo epsilon intersection light ls bs type
        = some Color.Black) := by
  have h : Renderer.estimateLd scene wo epsilon intersection light ls bs type
      = Renderer.estimateLdBSDF scene wo epsilon intersection light bs type
          (some Color.Black) := by
    simp only [Renderer.estimateLd, Renderer.estimateLdLight, hocc]
    split_ifs <;> simp_all
  refine ⟨h, ?_⟩
  intro hb
  rw [h]
  simp only [Renderer.estimateLdBSDF]
  rcases hb with hb | hb
  · simp [hb, Color.ne, Color.eq]
  · simp [not_lt.mpr hb]

theorem estimateLd_occluded_witness :
    Renderer.estimateLd (lampScene true) (1 : ℚ) 0 (paintHit 0 4) (lampLight false) () () 0
      = some Color.Black :=
  (estimateLd_occluded (lampScene true) (1 : ℚ) 0 (paintHit 0 4) (lampLight false) () () 0
    (by decide)).2 (Or.inr (by simp [paintHit, paintMaterial]))

/-- C2: for a delta light with a usable, unoccluded light sample,
`estimateLd` returns exactly `f * L * absdot(n, wi) / lightPdf`: no MIS
weight, and the same value whatever `sampleBSDF` and `light->pdf` would
answer (neither is consulted). -/
theorem estimateLd_delta {X : Externals} (scene : Scene X) (wo : X.Vector3)
    (epsilon : ℚ) (intersection : Intersection X) (light : Light X)
    (ls : X.LightSample) (bs : X.BSDFSample) (type : Nat)
    (hdelta : light.isDelta = true)
    (hL : (light.sampleL intersection.fragment.position epsilon ls).L ≠ Color.Black)
    (hpdf : 0 < (light.sampleL intersection.fragment.position epsilon ls).pdf)
    (hf : intersection.material.bsdf intersection.fragment wo
      (light.sampleL intersection.fragment.position epsilon ls).wi ≠ Color.Black)
    (hvis : scene.intersect
      (light.sampleL intersection.fragment.position epsilon ls).shadowRay = false) :
    ∀ (sampleBSDF : Fragment X → X.Vector3 → X.BSDFSample → Nat → BSDFSampling X)
      (lightPdfFn : X.Vector3 → X.Vector3 → ℚ),
      Renderer.estimateLd scene wo epsilon
        { intersection with
          material := { intersection.material with sampleBSDF := sampleBSDF } }
        { light with pdf := lightPdfFn } ls bs type
      = some
        { r := (intersection.material.bsdf intersection.fragment wo
              (light.sampleL intersection.fragment.position epsilon ls).wi).r
            * (light.sampleL intersection.fragment.position epsilon ls).L.r
            * X.absdot intersection.fragment.normal
                (light.sampleL intersection.fragment.position epsilon ls).wi
            / (light.sampleL intersection.fragment.position epsilon ls).pdf
          g := (intersection.material.bsdf intersection.fragment wo
              (light.sampleL intersection.fragment.position epsilon ls).wi).g
            * (light.sampleL intersection.fragment.position epsilon ls).L.g
            * X.absdot intersection.fragment.normal
                (light.sampleL intersection.fragment.position epsilon ls).wi
            / (light.sampleL intersection.fragment.position epsilon ls).pdf
          b := (intersection.material.bsdf intersection.fragment wo
              (light.sampleL intersection.fragment.position epsilon ls).wi).b
            * (light.sampleL intersection.fragment.position epsilon ls).L.b
            * X.absdot intersection.fragment.normal
                (light.sampleL intersection.fragment.position epsilon ls).wi
            / (light.sampleL intersection.fragment.position epsilon ls).pdf
          a := (intersection.material.bsdf intersection.fragment wo
              (light.sampleL intersection.fragment.position epsilon ls).wi).a } := by
  intro sampleBSDF lightPdfFn
  have hL' := (Color.ne_iff _ _).mpr hL
  have hf' := (Color.ne_iff _ _).mpr hf
  simp only [Renderer.estimateLd, Renderer.estimateLdLight, hL', hpdf, hf', hvis, hdelta,
    decide_True, Bool.and_self, Bool.not_false, if_true, Color.divScalar, hpdf.ne',
    if_false, Color.mul, Color.mulScalar]
  simp [div_eq_mul_inv]

theorem estimateLd_delta_witness :
    Renderer.estimateLd (lampScene false) (1 : ℚ) 0 (paintHit 1 4) (lampLight true) () () 0
      = some (Color.rgb 1 1 1) := by
  have h := estimateLd_delta (lampScene false) (1 : ℚ) 0 (paintHit 1 4) (lampLight true) () () 0
    rfl (by decide) (by norm_num [lampLight]) (by decide) (by decide)
    (paintHit 1 4).material.sampleBSDF (lampLight true).pdf
  rw [h]
  norm_num [lampLight, paintHit, paintMaterial, white, Color.rgb]

/-- C7 fails on the code: with a non-black `f`, `absdot(wi, n) != 0` and a
pdf of 0 written by `sampleBSDF`, `specularReflect` and `specularRefract`
divide by the pdf: the result is no finite colour, not `Color::Black`. -/
theorem specular_zero_pdf_divides :
    ((paintHit 0 16).material.sampleBSDF (paintHit 0 16).fragment (-1 : ℚ) () 17).pdf = 0 ∧
    Renderer.specularReflect whiteRenderer (lampScene false) ((0, 1) : ℚ × ℚ) 0
      (paintHit 0 16) () (0 : ℕ) = none ∧
    Renderer.specularRefract whiteRenderer (lampScene false) ((0, 1) : ℚ × ℚ) 0
      (paintHit 0 16) () (0 : ℕ) = none ∧
    Renderer.specularReflect whiteRenderer (lampScene false) ((0, 1) : ℚ × ℚ) 0
      (paintHit 0 16) () (0 : ℕ) ≠ some Color.Black := by
  have h1 : Renderer.specularReflect whiteRenderer (lampScene false) ((0, 1) : ℚ × ℚ) 0
      (paintHit 0 16) () (0 : ℕ) = none := by
    norm_num [Renderer.specularReflect, whiteRenderer, paintHit, paintMaterial, white,
      Color.rgb, Color.ne, Color.eq, Color.Black, accumulate, Color.divScalar]
  have h2 : Renderer.specularRefract whiteRenderer (lampScene false) ((0, 1) : ℚ × ℚ) 0
      (paintHit 0 16) () (0 : ℕ) = none := by
    norm_num [Renderer.specularRefract, whiteRenderer, paintHit, paintMaterial, white,
      Color.rgb, Color.ne, Color.eq, Color.Black, accumulate, Color.divScalar]
  refine ⟨rfl, h1, h2, ?_⟩
  rw [h1]; simp

theorem accumulate_some (c d : Color) :
    accumulate (some c) (some d) = some (c.addAssign d) := rfl

theorem Color.divScalar_of_ne (c : Color) (s : ℚ) (hs : s ≠ 0) :
    c.divScalar s = some (c.over s) := by
  simp [Color.divScalar, hs, Color.over, div_eq_mul_inv]

theorem Color.divAssignScalar_of_ne (c : Color) (s : ℚ) (hs : s ≠ 0) :
    c.divAssignScalar s = some (c.over s) := by
  simp [Color.divAssignScalar, hs, Color.over, div_eq_mul_inv]

theorem Renderer.estimateLdGather_isSome {X : Externals} (scene : Scene X)
    (epsilon : ℚ) (intersection : Intersection X) (light : Light X)
    (b : BSDFSampling X) (fWeight : ℚ) (Ld : Color) (hb : b.pdf ≠ 0) :
    ∃ E, Renderer.estimateLdGather scene epsilon intersection light b fWeight (some Ld)
      = some E := by
  simp only [Renderer.estimateLdGather, Color.divScalar_of_ne _ _ hb, accumulate_some]
  split
  · split_ifs <;> exact ⟨_, rfl⟩
  · exact ⟨_, rfl⟩

/-- Every division of `estimateLd` is by a pdf tested positive: the result
is a finite colour. -/
theorem Renderer.estimateLd_isSome {X : Externals} (scene : Scene X) (wo : X.Vector3)
    (epsilon : ℚ) (intersection : Intersection X) (light : Light X)
    (ls : X.LightSample) (bs : X.BSDFSample) (type : Nat) :
    ∃ E, Renderer.estimateLd scene wo epsilon intersection light ls bs type = some E := by
  have hB : ∀ Ld : Color, ∃ E, Renderer.estimateLdBSDF scene wo epsilon intersection light
      bs type (some Ld) = some E := by
    intro Ld
    simp only [Renderer.estimateLdBSDF]
    split_ifs with h1 h2 h3
    · exact ⟨_, rfl⟩
    · simp only [Bool.and_eq_true, decide_eq_true_eq] at h1
      exact Renderer.estimateLdGather_isSome _ _ _ _ _ _ _ h1.2.ne'
    · simp only [Bool.and_eq_true, decide_eq_true_eq] at h1
      exact Renderer.estimateLdGather_isSome _ _ _ _ _ _ _ h1.2.ne'
    · exact ⟨_, rfl⟩
  simp only [Renderer.estimateLd, Renderer.estimateLdLight]
  split_ifs with h1 h2 h3
  · simp only [Bool.and_eq_true, decide_eq_true_eq] at h1
    simp only [Color.divScalar_of_ne _ _ h1.2.ne']
    exact ⟨_, rfl⟩
  · simp only [Bool.and_eq_true, decide_eq_true_eq] at h1
    simp only [Color.divScalar_of_ne _ _ h1.2.ne', accumulate_some]
    exact hB _
  · exact hB _
  · exact hB _

/-- C5: with a non-empty light list and a power distribution that picks
light `i` with the pdf `p i > 0` (at the pick sample `u i`),
`singleSampleLd` returns `estimateLd(light_i) / p i`; hence the expectation
over the pick, `sum_i p i * (estimateLd(light_i) / p i)`, is
`sum_i estimateLd(light_i)`, for the same light and BSDF samples. -/
theorem singleSampleLd_unbiased {X : Externals} (rd : Renderer X) (scene : Scene X)
    (ray : X.Ray) (epsilon : ℚ) (intersection : Intersection X)
    (lightSample : X.LightSample) (bsdfSample : X.BSDFSample) (type : Nat)
    (powerDistribution : CDF1D) (u p : Nat → ℚ)
    (hne : scene.lights ≠ [])
    (hpd : rd.mPowerDistribution = some powerDistribution)
    (hpick : ∀ i, i < scene.lights.length → powerDistribution.sampleDiscrete (u i) = (i, p i))
    (hpos : ∀ i, i < scene.lights.length → 0 < p i) :
    ∃ E : Nat → Color,
      (∀ i light, scene.lights.get? i = some light →
        Renderer.estimateLd scene (X.neg (X.rayD ray)) epsilon intersection light
          lightSample bsdfSample type = some (E i) ∧
        Renderer.singleSampleLd rd scene ray epsilon intersection lightSample bsdfSample
          (u i) type = Except.ok (some ((E i).over (p i)))) ∧
      Color.sum scene.lights.length (fun i => Color.scale (p i) ((E i).over (p i)))
        = Color.sum scene.lights.length E := by
  classical
  have hE : ∀ i, ∃ c, ∀ light, scene.lights.get? i = some light →
      Renderer.estimateLd scene (X.neg (X.rayD ray)) epsilon intersection light
        lightSample bsdfSample type = some c := by
    intro i
    cases hl : scene.lights.get? i with
    | none => exact ⟨Color.Black, fun _ h => by cases h⟩
    | some l =>
      obtain ⟨c, hc⟩ := Renderer.estimateLd_isSome scene (X.neg (X.rayD ray)) epsilon
        intersection l lightSample bsdfSample type
      exact ⟨c, fun light h => by cases h; exact hc⟩
  choose E hEs using hE
  refine ⟨E, ?_, ?_⟩
  · intro i light hl
    have hi : i < scene.lights.length := by
      rcases List.get?_eq_some.mp hl with ⟨h, _⟩
      exact h
    refine ⟨hEs i light hl, ?_⟩
    have hlen : scene.lights.length ≠ 0 := fun h => hne (List.length_eq_zero.mp h)
    simp only [Renderer.singleSampleLd, hlen, if_false, hpd, hpick i hi, hl, hEs i light hl,
      Option.some_bind, Color.divScalar_of_ne _ _ (hpos i hi).ne']
  · simp only [Color.sum, Color.scale, Color.mulScalar, Color.over]
    have key : ∀ x : ℚ, ∀ i ∈ Finset.range scene.lights.length, x / p i * p i = x := by
      intro x i hi
      exact div_mul_cancel₀ x (hpos i (Finset.mem_range.mp hi)).ne'
    congr 1
    · exact Finset.sum_congr rfl (fun i hi => key _ i hi)
    · exact Finset.sum_congr rfl (fun i hi => key _ i hi)
    · exact Finset.sum_congr rfl (fun i hi => key _ i hi)

theorem singleSampleLd_unbiased_witness :
    ∃ E : Nat → Color,
      (∀ i light, twoLampScene.lights.get? i = some light →
        Renderer.estimateLd twoLampScene (lineWorld.neg (lineWorld.rayD ((0, 1) : ℚ × ℚ))) 0
          (paintHit 1 4) light () () 0 = some (E i) ∧
        Renderer.singleSampleLd twoLampRenderer twoLampScene ((0, 1) : ℚ × ℚ) 0
          (paintHit 1 4) () () ((fun i => if i = 0 then 1 / 8 else 1 / 2) i) 0
          = Except.ok (some ((E i).over ((fun i => if i = 0 then 1 / 4 else 3 / 4) i)))) ∧
      Color.sum twoLampScene.lights.length
          (fun i => Color.scale ((fun i => if i = 0 then 1 / 4 else 3 / 4) i)
            ((E i).over ((fun i => if i = 0 then 1 / 4 else 3 / 4) i)))
        = Color.sum twoLampScene.lights.length E :=
  singleSampleLd_unbiased twoLampRenderer twoLampScene ((0, 1) : ℚ × ℚ) 0 (paintHit 1 4) () () 0
    (CDF1D.ofFunction [1, 3]) (fun i => if i = 0 then 1 / 8 else 1 / 2)
    (fun i => if i = 0 then 1 / 4 else 3 / 4)
    (by simp [twoLampScene]) rfl
    (by
      intro i hi
      have hi2 : i < 2 := hi
      interval_cases i <;>
        norm_num [CDF1D.sampleDiscrete, CDF1D.search, CDF1D.ofFunction, CDF1D.cdfAt,
          List.range, List.range.loop])
    (by
      intro i _
      by_cases h : i = 0 <;> simp [h])

theorem Color.addAssign_sum_zero (c : Color) (f : Nat → Color) :
    c.addAssign (Color.sum 0 f) = c := by
  cases c; simp [Color.addAssign, Color.sum]

theorem Color.addAssign_sum_succ (c : Color) (f : Nat → Color) (n todo : Nat) :
    (c.addAssign (f n)).addAssign (Color.sum todo (fun k => f (n + 1 + k)))
      = c.addAssign (Color.sum (todo + 1) (fun k => f (n + k))) := by
  have e : (fun k => f (n + 1 + k)) = (fun k => f (n + (k + 1))) := by
    funext k; congr 1; omega
  rw [e]
  simp only [Color.addAssign, Color.sum, Finset.sum_range_succ', Nat.add_zero]
  congr 1 <;> ring

theorem Color.addAssign_sum_last (c : Color) (f : Nat → Color) (n : Nat) :
    (c.addAssign (Color.sum n f)).addAssign (f n) = c.addAssign (Color.sum (n + 1) f) := by
  simp only [Color.addAssign, Color.sum, Finset.sum_range_succ]
  congr 1 <;> ring

theorem Color.Black_addAssign_sum (f : Nat → Color) (n : Nat) :
    Color.Black.addAssign (Color.sum n f) = Color.sum n f := by
  simp [Color.addAssign, Color.sum, Color.Black]

theorem Renderer.multiSampleLdInner_eq {X : Externals} (scene : Scene X) (ray : X.Ray)
    (epsilon : ℚ) (intersection : Intersection X) (sample : X.Sample)
    (lsi : List X.LightSampleIndex) (bsi : List X.BSDFSampleIndex)
    (type : Nat) (i : Nat) (light : Light X) (li : X.LightSampleIndex)
    (bi : X.BSDFSampleIndex) (hli : lsi.get? i = some li) (hbi : bsi.get? i = some bi) :
    ∀ (todo n : Nat) (Ld : Color) (rng : X.RNG), ∃ rng1,
      Renderer.multiSampleLdInner scene ray epsilon intersection sample (some lsi) (some bsi)
        type i light todo n (some Ld) rng
      = Except.ok (some (Ld.addAssign (Color.sum todo (fun k =>
          Renderer.multiSampleLdTerm scene ray epsilon intersection sample type light li bi
            (n + k)))), rng1) := by
  intro todo
  induction todo with
  | zero =>
    intro n Ld rng
    exact ⟨rng, by simp [Renderer.multiSampleLdInner, Color.addAssign_sum_zero]⟩
  | succ m ih =>
    intro n Ld rng
    obtain ⟨E, hE⟩ := Renderer.estimateLd_isSome scene (X.neg (X.rayD ray)) epsilon
      intersection light (X.lightSampleOf sample li n) (X.bsdfSampleOf sample bi n) type
    have hT : Renderer.multiSampleLdTerm scene ray epsilon intersection sample type light
        li bi n = E := by
      simp [Renderer.multiSampleLdTerm, hE]
    obtain ⟨rng1, h1⟩ := ih (n + 1) (Ld.addAssign E)
      (X.bsdfSampleOfRNG (X.lightSampleOfRNG rng).2).2
    refine ⟨rng1, ?_⟩
    simp only [Renderer.multiSampleLdInner, hli, hbi, hE, accumulate_some, h1]
    rw [← hT, Color.addAssign_sum_succ]

theorem Renderer.multiSampleLdOuter_eq {X : Externals} (scene : Scene X) (ray : X.Ray)
    (epsilon : ℚ) (intersection : Intersection X) (sample : X.Sample)
    (lsi : List X.LightSampleIndex) (bsi : List X.BSDFSampleIndex) (type : Nat)
    (hl : scene.lights.length ≤ lsi.length) (hb : scene.lights.length ≤ bsi.length)
    (hn : ∀ i li, i < scene.lights.length → lsi.get? i = some li → 1 ≤ X.samplesNum li) :
    ∀ (rest : List (Light X)) (i : Nat) (rng : X.RNG),
      i + rest.length = scene.lights.length → scene.lights.drop i = rest →
      Renderer.multiSampleLdOuter scene ray epsilon intersection sample (some lsi) (some bsi)
        type rest i
        (some (Color.Black.addAssign (Color.sum i
          (Renderer.multiSampleLdAverage scene ray epsilon intersection sample type lsi bsi))))
        rng
      = Except.ok (some (Color.Black.addAssign (Color.sum scene.lights.length
          (Renderer.multiSampleLdAverage scene ray epsilon intersection sample type
            lsi bsi)))) := by
  intro rest
  induction rest with
  | nil =>
    intro i rng hlen _
    have hi : i = scene.lights.length := by simpa using hlen
    subst hi
    simp [Renderer.multiSampleLdOuter]
  | cons light rest ih =>
    intro i rng hlen hdrop
    have hi : i < scene.lights.length := by simp at hlen; omega
    have hlight : scene.lights.get? i = some light := by
      have := congrArg List.head? hdrop
      simpa [List.head?_drop] using this
    obtain ⟨li, hli⟩ : ∃ li, lsi.get? i = some li :=
      ⟨lsi.get ⟨i, by omega⟩, List.get?_eq_get _⟩
    obtain ⟨bi, hbi⟩ : ∃ bi, bsi.get? i = some bi :=
      ⟨bsi.get ⟨i, by omega⟩, List.get?_eq_get _⟩
    have hnum : (X.samplesNum li : ℚ) ≠ 0 := by
      have := hn i li hi hli
      have h0 : X.samplesNum li ≠ 0 := by omega
      exact_mod_cast h0
    obtain ⟨rng1, hin⟩ := Renderer.multiSampleLdInner_eq scene ray epsilon intersection sample
      lsi bsi type i light li bi hli hbi (X.samplesNum li) 0 Color.Black rng
    have hrest : scene.lights.drop (i + 1) = rest := by
      have := congrArg List.tail hdrop
      simpa [List.tail_drop] using this
    have hav : Renderer.multiSampleLdAverage scene ray epsilon intersection sample type
        lsi bsi i
        = (Color.sum (X.samplesNum li)
            (Renderer.multiSampleLdTerm scene ray epsilon intersection sample type light
              li bi)).over (X.samplesNum li : ℚ) := by
      have h1 := hlight
      have h2 := hli
      have h3 := hbi
      simp only [List.get?_eq_getElem?] at h1 h2 h3
      simp [Renderer.multiSampleLdAverage, h1, h2, h3]
    have hstep := ih (i + 1) rng1 (by simp at hlen; omega) hrest
    simp only [Renderer.multiSampleLdOuter, hli, hin, Option.some_bind, Nat.zero_add,
      Color.Black_addAssign_sum, Color.divAssignScalar_of_ne _ _ hnum, accumulate_some]
    rw [← hav]
    have hacc : (Color.sum i (Renderer.multiSampleLdAverage scene ray epsilon intersection
          sample type lsi bsi)).addAssign
          (Renderer.multiSampleLdAverage scene ray epsilon intersection sample type lsi bsi i)
        = Color.sum (i + 1) (Renderer.multiSampleLdAverage scene ray epsilon intersection
          sample type lsi bsi) := by
      have := Color.addAssign_sum_last Color.Black
        (Renderer.multiSampleLdAverage scene ray epsilon intersection sample type lsi bsi) i
      simpa [Color.Black_addAssign_sum] using this
    rw [hacc]
    simpa [Color.Black_addAssign_sum] using hstep

/-- C6: `multiSampleLd` loops over every light and averages: with the index
arrays present and every sample count `n_i >= 1`, the result is the sum over
the lights `i` of `(sum over k < n_i of estimateLd(light_i, ls_{i,k},
bs_{i,k})) / n_i`, the samples being those looked up with (index `i`, sample
`k`); with an empty light list the result is `Color::Black`. -/
theorem multiSampleLd_average {X : Externals} (scene : Scene X) (ray : X.Ray)
    (epsilon : ℚ) (intersection : Intersection X) (sample : X.Sample) (rng : X.RNG)
    (lsi : List X.LightSampleIndex) (bsi : List X.BSDFSampleIndex) (type : Nat)
    (hl : scene.lights.length ≤ lsi.length) (hb : scene.lights.length ≤ bsi.length)
    (hn : ∀ i li, i < scene.lights.length → lsi.get? i = some li → 1 ≤ X.samplesNum li) :
    Renderer.multiSampleLd scene ray epsilon intersection sample rng (some lsi) (some bsi) type
      = Except.ok (some (Renderer.multiSampleLdSpec scene ray epsilon intersection sample
          type lsi bsi)) ∧
    (scene.lights = [] →
      ∀ (lightSampleIndexes : Option (List X.LightSampleIndex))
        (bsdfSampleIndexes : Option (List X.BSDFSampleIndex)),
        Renderer.multiSampleLd scene ray epsilon intersection sample rng lightSampleIndexes
          bsdfSampleIndexes type = Except.ok (some Color.Black)) := by
  constructor
  · have h := Renderer.multiSampleLdOuter_eq scene ray epsilon intersection sample lsi bsi
      type hl hb hn scene.lights 0 rng (by simp) (by simp)
    have h0 : Color.Black.addAssign (Color.sum 0
        (Renderer.multiSampleLdAverage scene ray epsilon intersection sample type lsi bsi))
        = Color.Black := Color.addAssign_sum_zero _ _
    rw [h0] at h
    simpa [Renderer.multiSampleLd, Renderer.multiSampleLdSpec, Color.Black_addAssign_sum]
      using h
  · intro hnil a b
    simp [Renderer.multiSampleLd, hnil, Renderer.multiSampleLdOuter]

theorem multiSampleLd_average_witness :
    Renderer.multiSampleLd twoLampScene ((0, 1) : ℚ × ℚ) 0 (paintHit 1 4) () (0 : ℕ)
        (some [2, 1]) (some [0, 0]) 0
      = Except.ok (some (Renderer.multiSampleLdSpec twoLampScene ((0, 1) : ℚ × ℚ) 0
          (paintHit 1 4) () 0 [2, 1] [0, 0])) ∧
    Renderer.multiSampleLdSpec twoLampScene ((0, 1) : ℚ × ℚ) 0 (paintHit 1 4) () 0
        [2, 1] [0, 0] = Color.rgb 2 2 2 :=
  ⟨(multiSampleLd_average twoLampScene ((0, 1) : ℚ × ℚ) 0 (paintHit 1 4) () (0 : ℕ)
      [2, 1] [0, 0] 0 (by decide) (by decide)
      (by
        intro i li hi hli
        have hi2 : i < 2 := hi
        interval_cases i <;> simp at hli <;> subst hli <;> decide)).1,
    by
      norm_num [Renderer.multiSampleLdSpec, Renderer.multiSampleLdAverage,
        Renderer.multiSampleLdTerm, Color.sum, Finset.sum_range_succ, twoLampScene,
        Renderer.estimateLd, Renderer.estimateLdLight, Renderer.estimateLdBSDF,
        Renderer.estimateLdGather, lampLight, paintHit, paintMaterial, lampSurface,
        white, Color.rgb, Color.ne, Color.eq, Color.Black, accumulate, Color.mul,
        Color.mulScalar, Color.divScalar, Color.addAssign, powerHeuristic, Color.over,
        (by decide : (4 : Nat) &&& 16 = 0)]⟩

/-- C11, as stated, fails: `operator+` keeps the alpha of its left operand,
so for two colours of different alpha `(x + y) == (y + x)` is false. -/
theorem add_comm_fails_on_alpha :
    (Color.mk 1 2 3 1).add (Color.mk 4 5 6 0) = Color.mk 5 7 9 1 ∧
    (Color.mk 4 5 6 0).add (Color.mk 1 2 3 1) = Color.mk 5 7 9 0 ∧
    ((Color.mk 1 2 3 1).add (Color.mk 4 5 6 0)).eq
      ((Color.mk 4 5 6 0).add (Color.mk 1 2 3 1)) = false := by
  norm_num [Color.add, Color.eq]

/-- C11, amended: `x + y` and `y + x` have the same `r`, `g` and `b`, each
carries the alpha of its left operand, and `(x + y) == (y + x)` holds
exactly when `x.a == y.a`. -/
theorem Color_add_comm_iff (x y : Color) :
    (x.add y).r = (y.add x).r ∧ (x.add y).g = (y.add x).g ∧ (x.add y).b = (y.add x).b ∧
    (x.add y).a = x.a ∧ (y.add x).a = y.a ∧
    ((x.add y).eq (y.add x) = true ↔ x.a = y.a) := by
  refine ⟨add_comm _ _, add_comm _ _, add_comm _ _, rfl, rfl, ?_⟩
  rw [Color.eq_iff]
  constructor
  · intro h
    have := congrArg Color.a h
    simpa [Color.add] using this
  · intro h
    simp [Color.add, h, add_comm]
theorem RenderProgress.afterUpdates_new (n : Int) (k : Nat) :
    (RenderProgress.new n).afterUpdates k = { mFinishedNum := (k : Int), mTasksNum := n } := by
  induction k with
  | zero => rfl
  | succ k ih =>
    simp only [RenderProgress.afterUpdates, ih, RenderProgress.update]
    push_cast
    rfl

theorem RenderProgress.complete_mem_outputOfUpdate (n : Int) (k : Nat) :
    ProgressOutput.complete ∈ (RenderProgress.new n).outputOfUpdate (k + 1)
      ↔ ((k + 1 : Nat) : Int) = n := by
  simp only [RenderProgress.outputOfUpdate, RenderProgress.afterUpdates_new,
    RenderProgress.update]
  push_cast
  by_cases h : (k : Int) + 1 = n <;> simp [h]

theorem RenderProgress.count_outputOfUpdate (n : Int) (k : Nat) :
    ((RenderProgress.new n).outputOfUpdate (k + 1)).count ProgressOutput.complete
      = if ((k + 1 : Nat) : Int) = n then 1 else 0 := by
  simp only [RenderProgress.outputOfUpdate, RenderProgress.afterUpdates_new,
    RenderProgress.update]
  push_cast
  by_cases h : (k : Int) + 1 = n <;> simp [h]

/-- C12: from `RenderProgress(n)`, after `k` calls of `update` and no
`reset` the finished count is `k` and the task total is still `n`; the
`k`-th update writes "Render Complete!" exactly when `k == n`; so the first
`K` updates write it once when `1 <= n <= K`, and never otherwise. -/
theorem RenderProgress_counts (n : Int) (k : Nat) :
    ((RenderProgress.new n).afterUpdates k).mFinishedNum = (k : Int) ∧
    ((RenderProgress.new n).afterUpdates k).mTasksNum = n ∧
    (ProgressOutput.complete ∈ (RenderProgress.new n).outputOfUpdate (k + 1)
      ↔ ((k + 1 : Nat) : Int) = n) ∧
    ((RenderProgress.new n).outputOfUpdates k).count ProgressOutput.complete
      = if 1 ≤ n ∧ n ≤ (k : Int) then 1 else 0 := by
  refine ⟨by rw [RenderProgress.afterUpdates_new], by rw [RenderProgress.afterUpdates_new],
    RenderProgress.complete_mem_outputOfUpdate n k, ?_⟩
  induction k with
  | zero =>
    have h0 : ¬ (1 ≤ n ∧ n ≤ ((0 : Nat) : Int)) := by
      rintro ⟨h1, h2⟩
      have : n ≤ 0 := by simpa using h2
      omega
    rw [if_neg h0]
    rfl
  | succ k ih =>
    rw [RenderProgress.outputOfUpdates, List.count_append, ih,
      RenderProgress.count_outputOfUpdate]
    by_cases h1 : 1 ≤ n ∧ n ≤ (k : Int)
    · have h2 : ¬ ((k + 1 : Nat) : Int) = n := by push_cast; omega
      have h3 : 1 ≤ n ∧ n ≤ ((k + 1 : Nat) : Int) := ⟨h1.1, by push_cast; omega⟩
      rw [if_pos h1, if_neg h2, if_pos h3]
    · by_cases h2 : ((k + 1 : Nat) : Int) = n
      · have h3 : 1 ≤ n ∧ n ≤ ((k + 1 : Nat) : Int) := by
          constructor
          · rw [← h2]; push_cast; omega
          · rw [h2]
        rw [if_neg h1, if_pos h2, if_pos h3]
      · have h3 : ¬ (1 ≤ n ∧ n ≤ ((k + 1 : Nat) : Int)) := by
          rintro ⟨a, b⟩
          push_cast at b h2
          apply h1
          exact ⟨a, by omega⟩
        rw [if_neg h1, if_neg h2, if_neg h3]

/-- C14 fails on the code for `Renderer::Lv`: in the fog scene, which has
no light, with the power distribution still `NULL`, `Lv` calls
`sampleDiscrete` on the `NULL` distribution at its first sample point, before
its test `lights.size() > 0`; `singleSampleLd` returns `Color::Black`
first, as the claim says. -/
theorem Lv_picks_before_light_guard :
    fogScene.lights = [] ∧ whiteRenderer.mPowerDistribution = none ∧
    (∀ fuel, Renderer.Lv whiteRenderer (fuel + 1) fogScene ((0, 1) : ℚ × ℚ) (0 : ℕ)
      = Except.error Fault.nullDeref) ∧
    (∀ pickLightSample, Renderer.singleSampleLd whiteRenderer fogScene ((0, 1) : ℚ × ℚ) 0
      (paintHit 1 4) () () pickLightSample 0 = Except.ok (some Color.Black)) := by
  refine ⟨rfl, rfl, ?_, ?_⟩
  · intro fuel
    norm_num [Renderer.Lv, Renderer.LvLoop, Renderer.LvBody, fogScene, fogVolume,
      whiteRenderer]
  · intro u
    simp [Renderer.singleSampleLd, fogScene]

theorem Renderer.multiSampleLdInner_fallback {X : Externals} (scene : Scene X) (ray : X.Ray)
    (epsilon : ℚ) (intersection : Intersection X) (sample : X.Sample)
    (lsi : List X.LightSampleIndex) (type : Nat) (i : Nat) (light : Light X) :
    ∀ (todo n : Nat) (Ld : Color) (rng : X.RNG),
      Renderer.multiSampleLdInner scene ray epsilon intersection sample (some lsi) none
        type i light todo n (some Ld) rng
      = Except.ok (some (Ld.addAssign (Color.sum todo
          (Renderer.multiSampleLdFallbackTerm scene ray epsilon intersection type light rng))),
          Renderer.multiSampleLdStream^[todo] rng) := by
  intro todo
  induction todo with
  | zero =>
    intro n Ld rng
    simp [Renderer.multiSampleLdInner, Color.addAssign_sum_zero]
  | succ m ih =>
    intro n Ld rng
    obtain ⟨E, hE⟩ := Renderer.estimateLd_isSome scene (X.neg (X.rayD ray)) epsilon
      intersection light (X.lightSampleOfRNG rng).1
      (X.bsdfSampleOfRNG (X.lightSampleOfRNG rng).2).1 type
    have hT : Renderer.multiSampleLdFallbackTerm scene ray epsilon intersection type light
        rng 0 = E := by
      simp [Renderer.multiSampleLdFallbackTerm, hE]
    have hshift : Renderer.multiSampleLdFallbackTerm scene ray epsilon
        intersection type light (Renderer.multiSampleLdStream rng)
        = (fun k => Renderer.multiSampleLdFallbackTerm scene ray epsilon intersection type
            light rng (0 + 1 + k)) := by
      funext k
      simp only [Renderer.multiSampleLdFallbackTerm, Nat.zero_add,
        Nat.add_comm 1 k, Function.iterate_succ_apply]
    have h1 := ih (n + 1) (Ld.addAssign E) (Renderer.multiSampleLdStream rng)
    rw [hshift, ← hT, Color.addAssign_sum_succ] at h1
    simp only [Nat.zero_add] at h1
    simp only [Renderer.multiSampleLdInner, hE, accumulate_some]
    rw [← hT]
    exact h1

/-- C17: with at least one light, `multiSampleLd` reads
`lightSampleIndexes[i].samplesNum` before it compares the array with
`NULL`: a call with `lightSampleIndexes == NULL` fails on that read,
whatever `bsdfSampleIndexes` is.  The fallback to samples drawn from the
random stream is what the inner loop does with `lightSampleIndexes`
non-null and `bsdfSampleIndexes == NULL`; with both non-null it looks the
samples up. -/
theorem multiSampleLd_null_fallback {X : Externals} (scene : Scene X) (ray : X.Ray)
    (epsilon : ℚ) (intersection : Intersection X) (sample : X.Sample) (type : Nat) :
    (scene.lights ≠ [] →
      ∀ (rng : X.RNG) (bsdfSampleIndexes : Option (List X.BSDFSampleIndex)),
        Renderer.multiSampleLd scene ray epsilon intersection sample rng none
          bsdfSampleIndexes type = Except.error Fault.nullDeref) ∧
    (∀ (lsi : List X.LightSampleIndex) (i : Nat) (light : Light X) (todo n : Nat)
        (Ld : Color) (rng : X.RNG),
      Renderer.multiSampleLdInner scene ray epsilon intersection sample (some lsi) none
        type i light todo n (some Ld) rng
      = Except.ok (some (Ld.addAssign (Color.sum todo
          (Renderer.multiSampleLdFallbackTerm scene ray epsilon intersection type light rng))),
          Renderer.multiSampleLdStream^[todo] rng)) ∧
    (∀ (lsi : List X.LightSampleIndex) (bsi : List X.BSDFSampleIndex) (i : Nat)
        (light : Light X) (li : X.LightSampleIndex) (bi : X.BSDFSampleIndex),
      lsi.get? i = some li → bsi.get? i = some bi →
      ∀ (todo n : Nat) (Ld : Color) (rng : X.RNG), ∃ rng1,
        Renderer.multiSampleLdInner scene ray epsilon intersection sample (some lsi)
          (some bsi) type i light todo n (some Ld) rng
        = Except.ok (some (Ld.addAssign (Color.sum todo (fun k =>
            Renderer.multiSampleLdTerm scene ray epsilon intersection sample type light
              li bi (n + k)))), rng1)) := by
  refine ⟨?_, ?_, ?_⟩
  · intro hne rng bsi
    cases hl : scene.lights with
    | nil => exact absurd hl hne
    | cons light rest => simp [Renderer.multiSampleLd, hl, Renderer.multiSampleLdOuter]
  · intro lsi i light todo n Ld rng
    exact Renderer.multiSampleLdInner_fallback scene ray epsilon intersection sample lsi
      type i light todo n Ld rng
  · intro lsi bsi i light li bi hli hbi todo n Ld rng
    exact Renderer.multiSampleLdInner_eq scene ray epsilon intersection sample lsi bsi
      type i light li bi hli hbi todo n Ld rng

theorem multiSampleLd_null_fallback_witness :
    twoLampScene.lights ≠ [] ∧
    Renderer.multiSampleLd twoLampScene ((0, 1) : ℚ × ℚ) 0 (paintHit 1 4) () (0 : ℕ)
      none none 0 = Except.error Fault.nullDeref ∧
    Renderer.multiSampleLd twoLampScene ((0, 1) : ℚ × ℚ) 0 (paintHit 1 4) () (0 : ℕ)
      none (some [0, 0]) 0 = Except.error Fault.nullDeref ∧
    Renderer.multiSampleLd twoLampScene ((0, 1) : ℚ × ℚ) 0 (paintHit 1 4) () (0 : ℕ)
      (some [2, 1]) none 0 = Except.ok (some (Color.rgb 2 2 2)) :=
  ⟨by simp [twoLampScene],
    (multiSampleLd_null_fallback twoLampScene ((0, 1) : ℚ × ℚ) 0 (paintHit 1 4) () 0).1
      (by simp [twoLampScene]) (0 : ℕ) none,
    (multiSampleLd_null_fallback twoLampScene ((0, 1) : ℚ × ℚ) 0 (paintHit 1 4) () 0).1
      (by simp [twoLampScene]) (0 : ℕ) (some [0, 0]),
    by
      norm_num [Renderer.multiSampleLd, Renderer.multiSampleLdOuter,
        Renderer.multiSampleLdInner, twoLampScene,
        Renderer.estimateLd, Renderer.estimateLdLight, Renderer.estimateLdBSDF,
        Renderer.estimateLdGather, lampLight, paintHit, paintMaterial, lampSurface,
        white, Color.rgb, Color.ne, Color.eq, Color.Black, accumulate, Color.mul,
        Color.mulScalar, Color.divScalar, Color.divAssignScalar, Color.addAssign,
        powerHeuristic, (by decide : (4 : Nat) &&& 16 = 0)]⟩

theorem Renderer.LvBody_cases {X : Externals} (rd : Renderer X) (scene : Scene X)
    (ray : X.Ray) (volume : VolumeRegion X) (stepSize : ℚ) (st : LvState X) :
    Renderer.LvBody rd scene ray volume stepSize st = Except.error Fault.nullDeref ∨
    Renderer.LvBody rd scene ray volume stepSize st = Except.error Fault.outOfRange ∨
    ∃ st1, Renderer.LvBody rd scene ray volume stepSize st = Except.ok st1 ∧
      st1.tCurrent = st.tCurrent + stepSize := by
  simp only [Renderer.LvBody]
  cases rd.mPowerDistribution with
  | none => exact Or.inl rfl
  | some pd =>
    simp only []
    by_cases hlen : 0 < scene.lights.length
    · simp only [hlen, if_true]
      cases scene.lights.get? (pd.sampleDiscrete (X.randomFloat st.rng).1).1 with
      | none => exact Or.inr (Or.inl rfl)
      | some light =>
        simp only []
        split_ifs <;> exact Or.inr (Or.inr ⟨_, rfl, rfl⟩)
    · simp only [hlen, if_false]
      exact Or.inr (Or.inr ⟨_, rfl, rfl⟩)

theorem Renderer.LvLoop_ne_outOfFuel {X : Externals} (rd : Renderer X) (scene : Scene X)
    (ray : X.Ray) (volume : VolumeRegion X) (stepSize tMax : ℚ) :
    ∀ (fuel : Nat) (st : LvState X), tMax < st.tCurrent + (fuel : ℚ) * stepSize →
      Renderer.LvLoop rd scene ray volume stepSize tMax fuel st
        ≠ Except.error Fault.outOfFuel := by
  intro fuel
  induction fuel with
  | zero =>
    intro st h
    have : ¬ st.tCurrent ≤ tMax := by
      simp only [Nat.cast_zero, zero_mul, add_zero] at h
      exact not_le.mpr h
    simp [Renderer.LvLoop, this]
  | succ f ih =>
    intro st h
    simp only [Renderer.LvLoop]
    split_ifs with hc
    · rcases Renderer.LvBody_cases rd scene ray volume stepSize st with hb | hb | ⟨st1, hb, ht⟩
      · rw [hb]; simp
      · rw [hb]; simp
      · rw [hb]
        apply ih
        rw [ht]
        push_cast at h
        linarith
    · simp

theorem Renderer.LvLoop_never_ok {X : Externals} (rd : Renderer X) (scene : Scene X)
    (ray : X.Ray) (volume : VolumeRegion X) (stepSize tMax : ℚ) (hs : stepSize ≤ 0) :
    ∀ (fuel : Nat) (st : LvState X), st.tCurrent ≤ tMax →
      ∀ st1, Renderer.LvLoop rd scene ray volume stepSize tMax fuel st ≠ Except.ok st1 := by
  intro fuel
  induction fuel with
  | zero =>
    intro st h st1
    simp [Renderer.LvLoop, h]
  | succ f ih =>
    intro st h st1
    simp only [Renderer.LvLoop, h, if_true]
    rcases Renderer.LvBody_cases rd scene ray volume stepSize st with hb | hb | ⟨st2, hb, ht⟩
    · rw [hb]; simp
    · rw [hb]; simp
    · rw [hb]
      apply ih
      rw [ht]
      linarith

theorem Renderer.LvLoop_outOfFuel {X : Externals} (rd : Renderer X) (scene : Scene X)
    (ray : X.Ray) (volume : VolumeRegion X) (stepSize tMax : ℚ) (hs : stepSize ≤ 0)
    (hbody : ∀ st, ∃ st1, Renderer.LvBody rd scene ray volume stepSize st = Except.ok st1) :
    ∀ (fuel : Nat) (st : LvState X), st.tCurrent ≤ tMax →
      Renderer.LvLoop rd scene ray volume stepSize tMax fuel st
        = Except.error Fault.outOfFuel := by
  intro fuel
  induction fuel with
  | zero =>
    intro st h
    simp [Renderer.LvLoop, h]
  | succ f ih =>
    intro st h
    obtain ⟨st1, hb⟩ := hbody st
    have ht : st1.tCurrent = st.tCurrent + stepSize := by
      rcases Renderer.LvBody_cases rd scene ray volume stepSize st with h1 | h1 | ⟨st2, h1, ht⟩
      · rw [hb] at h1; cases h1
      · rw [hb] at h1; cases h1
      · rw [hb] at h1; cases h1; exact ht
    simp only [Renderer.LvLoop, h, if_true, hb]
    apply ih
    rw [ht]
    linarith

theorem Renderer.LvBody_ok {X : Externals} (rd : Renderer X) (scene : Scene X)
    (ray : X.Ray) (volume : VolumeRegion X) (stepSize : ℚ) (pd : CDF1D)
    (hpd : rd.mPowerDistribution = some pd)
    (hidx : scene.lights ≠ [] → ∀ u, (pd.sampleDiscrete u).1 < scene.lights.length)
    (st : LvState X) :
    ∃ st1, Renderer.LvBody rd scene ray volume stepSize st = Except.ok st1 := by
  simp only [Renderer.LvBody, hpd]
  by_cases hlen : 0 < scene.lights.length
  · have hne : scene.lights ≠ [] := List.length_pos.mp hlen
    have hi := hidx hne (X.randomFloat st.rng).1
    have hget : scene.lights.get? (pd.sampleDiscrete (X.randomFloat st.rng).1).1
        = some (scene.lights.get ⟨_, hi⟩) := List.get?_eq_get _
    simp only [hlen, if_true, hget]
    split_ifs <;> exact ⟨_, rfl⟩
  · simp only [hlen, if_false]
    exact ⟨_, rfl⟩

/-- C15: the loop of `Lv` terminates exactly when the step size is
positive.  For a volume hit on `[tMin, tMax]`, `tMin <= tMax`, and a jitter
`u >= 0`: with `stepSize > 0` some fuel `N` suffices (the loop is left
after at most `N` rounds); with `stepSize <= 0` the loop is entered and
never left: `Lv` returns no value for any fuel, and every fuel runs out
when no round faults. -/
theorem Lv_terminates_iff {X : Externals} (rd : Renderer X) (scene : Scene X) (ray : X.Ray)
    (rng : X.RNG) (volume : VolumeRegion X) (tMin tMax : ℚ)
    (hvol : scene.volumeRegion = some volume)
    (hhit : volume.intersect ray = some (tMin, tMax))
    (hD : tMin ≤ tMax) (hu : 0 ≤ (X.randomFloat rng).1) :
    (0 < volume.getSampleStepSize →
      ∃ N : Nat, ∀ fuel, N ≤ fuel →
        Renderer.Lv rd fuel scene ray rng ≠ Except.error Fault.outOfFuel) ∧
    (volume.getSampleStepSize ≤ 0 →
      (∀ fuel value, Renderer.Lv rd fuel scene ray rng ≠ Except.ok value) ∧
      (∀ pd, rd.mPowerDistribution = some pd →
        (scene.lights ≠ [] → ∀ u, (pd.sampleDiscrete u).1 < scene.lights.length) →
        ∀ fuel, Renderer.Lv rd fuel scene ray rng = Except.error Fault.outOfFuel)) := by
  constructor
  · intro hs
    obtain ⟨N, hN⟩ := exists_nat_gt
      ((tMax - (tMin + volume.getSampleStepSize * (X.randomFloat rng).1))
        / volume.getSampleStepSize)
    refine ⟨N, fun fuel hfuel => ?_⟩
    have hlt : tMax < (tMin + volume.getSampleStepSize * (X.randomFloat rng).1)
        + (fuel : ℚ) * volume.getSampleStepSize := by
      rw [div_lt_iff₀ hs] at hN
      have : (N : ℚ) ≤ (fuel : ℚ) := by exact_mod_cast hfuel
      nlinarith
    have hloop := Renderer.LvLoop_ne_outOfFuel rd scene ray volume volume.getSampleStepSize
      tMax fuel
      { tCurrent := tMin + volume.getSampleStepSize * (X.randomFloat rng).1
        pPrevious := X.rayAt ray tMin
        pCurrent := X.rayAt ray (tMin + volume.getSampleStepSize * (X.randomFloat rng).1)
        Lv := some (Color.ofFloat 0)
        transmittance := Color.ofFloat 1
        rng := (X.randomFloat rng).2 } hlt
    simp only [Renderer.Lv, hvol, hhit]
    intro h
    split at h
    · rename_i e he
      cases h
      exact hloop he
    · cases h
  · intro hs
    have hentry : tMin + volume.getSampleStepSize * (X.randomFloat rng).1 ≤ tMax := by
      have : volume.getSampleStepSize * (X.randomFloat rng).1 ≤ 0 :=
        mul_nonpos_of_nonpos_of_nonneg hs hu
      linarith
    constructor
    · intro fuel value h
      simp only [Renderer.Lv, hvol, hhit] at h
      split at h
      · cases h
      · rename_i st hst
        exact Renderer.LvLoop_never_ok rd scene ray volume volume.getSampleStepSize tMax hs
          fuel _ hentry st hst
    · intro pd hpd hidx fuel
      have hloop := Renderer.LvLoop_outOfFuel rd scene ray volume volume.getSampleStepSize
        tMax hs (Renderer.LvBody_ok rd scene ray volume volume.getSampleStepSize pd hpd hidx)
        fuel
        { tCurrent := tMin + volume.getSampleStepSize * (X.randomFloat rng).1
          pPrevious := X.rayAt ray tMin
          pCurrent := X.rayAt ray (tMin + volume.getSampleStepSize * (X.randomFloat rng).1)
          Lv := some (Color.ofFloat 0)
          transmittance := Color.ofFloat 1
          rng := (X.randomFloat rng).2 } hentry
      simp only [Renderer.Lv, hvol, hhit, hloop]

theorem Lv_terminates_iff_witness :
    stillScene.volumeRegion = some stillVolume ∧ stillVolume.getSampleStepSize ≤ 0 ∧
    ∀ fuel, Renderer.Lv fogRenderer fuel stillScene ((0, 1) : ℚ × ℚ) (0 : ℕ)
      = Except.error Fault.outOfFuel :=
  ⟨rfl, by norm_num [stillVolume],
    ((Lv_terminates_iff fogRenderer stillScene ((0, 1) : ℚ × ℚ) (0 : ℕ) stillVolume 0 2
      rfl rfl (by norm_num) (by norm_num)).2 (by norm_num [stillVolume])).2
      (CDF1D.ofFunction [2]) rfl
      (by
        intro _ u
        have hp : (CDF1D.ofFunction [2]).sampleDiscrete u = (0, 1) := by
          norm_num [CDF1D.sampleDiscrete, CDF1D.search, CDF1D.ofFunction]
        rw [hp]
        simp [stillScene, fogLampScene])⟩

theorem RenderTask.streamAfterAll_append {X : Externals} {SamplerState : Type}
    (task : RenderTask X SamplerState) (lvFuel : Nat) :
    ∀ (xs ys : List X.Sample) (rng : X.RNG),
      RenderTask.streamAfterAll task lvFuel (xs ++ ys) rng
        = RenderTask.streamAfterAll task lvFuel ys
            (RenderTask.streamAfterAll task lvFuel xs rng) := by
  intro xs
  induction xs with
  | nil => intro ys rng; rfl
  | cons x xs ih =>
    intro ys rng
    simp [RenderTask.streamAfterAll, ih]

end Goblin
